import Mathlib

/-!
Verification of the character-computation engine of `dnd-character-manager`
(`src/engine/CharacterCalculator.ts`), shallowly embedded in Lean.

JavaScript numbers are modelled as exact rationals extended with the IEEE
non-finite markers (`Infinity`, `-Infinity`, `NaN`) plus booleans, which the
math.js expression evaluator can also produce.  Character levels and hit dice,
which the source iterates over with integer `for` loops, are modelled as `Nat`.
Keyed `Record<string, T>` objects are modelled as insertion-ordered association
lists.  Fallible code returns `Except FormulaError`.
-/

-- =============================================================================
-- FORMULA EVALUATOR
--
-- `CharacterCalculator.ts` builds a math.js instance with `create(all)` (the
-- full math.js function set) and then overrides six functions
-- (`import`, `createUnit`, `evaluate`, `parse`, `simplify`, `derivative`)
-- with functions that throw.  Formulas arrive as strings and are parsed by
-- math.js; we embed the parsed form as an expression tree `FExpr`.
-- The instance's function table is modelled by `applyMathFunction`: the
-- arithmetic function fragment actually reachable from formulas is given exact
-- semantics (this fragment includes `square`, `cube` and `sign`, which are part
-- of math.js `all` although they are outside the specification's whitelist);
-- the remaining names of the full instance are conservatively modelled as
-- unknown symbols, under-approximating the real callable surface of
-- `create(all)`; the PRNG-backed `random` of the instance is modelled exactly
-- in the second, PRNG-explicit copy of the evaluator below.  A further
-- under-approximation: math.js resolves an identifier missing from the scope
-- against its namespace constants (`pi`, `e`, ...) before failing, while this
-- model reports it unresolved; no formula in this development references a
-- namespace constant.
-- =============================================================================

/-- Errors thrown during formula evaluation (the code rethrows every evaluator
error out of `evaluateFormula`; the spec calls them `FormulaError`). -/
inductive FormulaError where
  /-- one of the six functions overridden with a throwing implementation -/
  | disabled (name : String)
  /-- an identifier that resolves neither in the scope nor in the modelled
  function table -/
  | undefinedSymbol (name : String)
  /-- `lookup` on a table name absent from the `tables` argument -/
  | tableNotFound (table : String)
  /-- `lookup` on a key absent from the named table -/
  | keyNotFound (table : String) (key : String)
  /-- the final result was not a finite number
  (`typeof result !== 'number' || !isFinite(result)`) -/
  | notFiniteResult
  /-- a modelled function applied to arguments it does not accept -/
  | badArguments (name : String)
deriving DecidableEq, Repr

/-- A math.js runtime value reachable from the formula grammar: a finite
number (exact rational), the IEEE non-finite markers, or a boolean (produced
by the comparison operators). -/
inductive MVal where
  | num (q : ℚ)
  | posInf
  | negInf
  | nan
  | bool (b : Bool)
deriving DecidableEq, Repr

/-- math.js implicitly converts booleans to numbers inside arithmetic. -/
def MVal.toNumber : MVal → MVal
  | .bool b => .num (if b then 1 else 0)
  | v => v

/-- IEEE-style addition on extended values. -/
def MVal.addV (a b : MVal) : MVal :=
  match a.toNumber, b.toNumber with
  | .num x, .num y => .num (x + y)
  | .nan, _ => .nan
  | _, .nan => .nan
  | .posInf, .negInf => .nan
  | .negInf, .posInf => .nan
  | .posInf, _ => .posInf
  | _, .posInf => .posInf
  | .negInf, _ => .negInf
  | _, .negInf => .negInf
  | _, _ => .nan

/-- IEEE-style subtraction on extended values. -/
def MVal.subV (a b : MVal) : MVal :=
  match a.toNumber, b.toNumber with
  | .num x, .num y => .num (x - y)
  | .nan, _ => .nan
  | _, .nan => .nan
  | .posInf, .posInf => .nan
  | .negInf, .negInf => .nan
  | .posInf, _ => .posInf
  | .negInf, _ => .negInf
  | _, .posInf => .negInf
  | _, .negInf => .posInf
  | _, _ => .nan

/-- IEEE-style multiplication on extended values. -/
def MVal.mulV (a b : MVal) : MVal :=
  match a.toNumber, b.toNumber with
  | .num x, .num y => .num (x * y)
  | .nan, _ => .nan
  | _, .nan => .nan
  | .posInf, .num y => if y = 0 then .nan else if 0 < y then .posInf else .negInf
  | .num x, .posInf => if x = 0 then .nan else if 0 < x then .posInf else .negInf
  | .negInf, .num y => if y = 0 then .nan else if 0 < y then .negInf else .posInf
  | .num x, .negInf => if x = 0 then .nan else if 0 < x then .negInf else .posInf
  | .posInf, .posInf => .posInf
  | .negInf, .negInf => .posInf
  | .posInf, .negInf => .negInf
  | .negInf, .posInf => .negInf
  | _, _ => .nan

/-- IEEE-style division on extended values (division by zero produces the
non-finite markers exactly as JavaScript doubles do). -/
def MVal.divV (a b : MVal) : MVal :=
  match a.toNumber, b.toNumber with
  | .num x, .num y =>
      if y = 0 then (if x = 0 then .nan else if 0 < x then .posInf else .negInf)
      else .num (x / y)
  | .nan, _ => .nan
  | _, .nan => .nan
  | .posInf, .num _ => .posInf
  | .negInf, .num _ => .negInf
  | .num _, .posInf => .num 0
  | .num _, .negInf => .num 0
  | _, _ => .nan

/-- math.js `mod` (the `%` operator): `x - y * floor(x / y)`, with
`mod(x, 0) = x`; coarsely `NaN` on non-finite operands. -/
def MVal.modV (a b : MVal) : MVal :=
  match a.toNumber, b.toNumber with
  | .num x, .num y => if y = 0 then .num x else .num (x - y * ⌊x / y⌋)
  | _, _ => .nan

/-- Numeric comparison on extended values; `NaN` compares false to
everything, mirroring IEEE comparison semantics. -/
def MVal.cmpLt (a b : MVal) : MVal :=
  match a.toNumber, b.toNumber with
  | .num x, .num y => .bool (decide (x < y))
  | .nan, _ => .bool false
  | _, .nan => .bool false
  | .negInf, .negInf => .bool false
  | .posInf, .posInf => .bool false
  | .negInf, _ => .bool true
  | _, .posInf => .bool true
  | _, _ => .bool false

/-- Numeric equality on extended values (`NaN` is equal to nothing). -/
def MVal.cmpEq (a b : MVal) : MVal :=
  match a.toNumber, b.toNumber with
  | .num x, .num y => .bool (decide (x = y))
  | .nan, _ => .bool false
  | _, .nan => .bool false
  | .posInf, .posInf => .bool true
  | .negInf, .negInf => .bool true
  | _, _ => .bool false

/-- Boolean negation of a comparison result. -/
def MVal.notB : MVal → MVal
  | .bool b => .bool (!b)
  | _ => .nan

/-- Truthiness of a ternary condition: booleans as themselves, numbers by
comparison with zero (as JavaScript's `Boolean`, under which `NaN` is false). -/
def MVal.truthy : MVal → Bool
  | .bool b => b
  | .num q => decide (q ≠ 0)
  | .posInf => true
  | .negInf => true
  | .nan => false

/-- The six function names the calculator overrides with throwing
implementations (`mathInstance.import({...}, { override: true })`). -/
def disabledFunctions : List String :=
  ["import", "createUnit", "evaluate", "parse", "simplify", "derivative"]

/-- The fixed function whitelist stated by the specification for the formula
DSL: `floor`, `ceil`, `round`, `min`, `max`, `abs`, plus the `lookup`
primitive.  (Spec-side definition; the code does not contain such a list.) -/
def specFormulaWhitelist : List String :=
  ["floor", "ceil", "round", "min", "max", "abs", "lookup"]

/-- math.js `round`: round half away from zero. -/
def roundHalfAway (q : ℚ) : ℚ :=
  if 0 ≤ q then ⌊q + 1/2⌋ else -⌊-q + 1/2⌋

/-- Minimum of two extended values (`NaN` propagates). -/
def MVal.minV (a b : MVal) : MVal :=
  match a.toNumber, b.toNumber with
  | .num x, .num y => .num (min x y)
  | .nan, _ => .nan
  | _, .nan => .nan
  | .negInf, _ => .negInf
  | _, .negInf => .negInf
  | .posInf, v => v
  | v, .posInf => v
  | _, _ => .nan

/-- Maximum of two extended values (`NaN` propagates). -/
def MVal.maxV (a b : MVal) : MVal :=
  match a.toNumber, b.toNumber with
  | .num x, .num y => .num (max x y)
  | .nan, _ => .nan
  | _, .nan => .nan
  | .posInf, _ => .posInf
  | _, .posInf => .posInf
  | .negInf, v => v
  | v, .negInf => v
  | _, _ => .nan

/-- Application of a unary numeric function with the given exact semantics on
finite values; `NaN` and infinities propagate. -/
def applyUnary (f : ℚ → ℚ) (keepInf : Bool) (v : MVal) : MVal :=
  match v.toNumber with
  | .num q => .num (f q)
  | .posInf => if keepInf then .posInf else .nan
  | .negInf => if keepInf then .negInf else .nan
  | _ => .nan

/-- The function table of the configured math.js instance, restricted to the
arithmetic fragment modelled exactly.  The six overridden names throw; the
whitelisted functions and a few further members of math.js `all` with exact
rational semantics (`square`, `cube`, `sign`) are evaluated; every other name
of the full instance is conservatively reported as an unknown symbol. -/
def applyMathFunction (name : String) (args : List MVal) : Except FormulaError MVal :=
  if name ∈ disabledFunctions then .error (.disabled name)
  else
    match name, args with
    | "floor", [v] => .ok (applyUnary (fun q => (⌊q⌋ : ℚ)) true v)
    | "ceil", [v] => .ok (applyUnary (fun q => (⌈q⌉ : ℚ)) true v)
    | "round", [v] => .ok (applyUnary roundHalfAway true v)
    | "abs", [v] =>
        .ok (match v.toNumber with
          | .num q => .num |q|
          | .posInf => .posInf
          | .negInf => .posInf
          | _ => .nan)
    | "min", v :: vs => .ok (vs.foldl MVal.minV v)
    | "max", v :: vs => .ok (vs.foldl MVal.maxV v)
    | "square", [v] => .ok (applyUnary (fun q => q * q) true v)
    | "cube", [v] => .ok (applyUnary (fun q => q * q * q) true v)
    | "sign", [v] =>
        .ok (match v.toNumber with
          | .num q => .num (if q < 0 then -1 else if q = 0 then 0 else 1)
          | .posInf => .num 1
          | .negInf => .num (-1)
          | _ => .nan)
    | "floor", _ => .error (.badArguments "floor")
    | "ceil", _ => .error (.badArguments "ceil")
    | "round", _ => .error (.badArguments "round")
    | "abs", _ => .error (.badArguments "abs")
    | "min", _ => .error (.badArguments "min")
    | "max", _ => .error (.badArguments "max")
    | "square", _ => .error (.badArguments "square")
    | "cube", _ => .error (.badArguments "cube")
    | "sign", _ => .error (.badArguments "sign")
    | _, _ => .error (.undefinedSymbol name)

/-- The parsed form of a formula string of the DSL described in the spec:
arithmetic, comparisons, ternary conditional, function calls and the
two-argument `lookup(tableName, key)` primitive (whose first argument is a
string literal and therefore gets a dedicated constructor). -/
inductive FExpr where
  | num (q : ℚ)
  | var (name : String)
  | neg (e : FExpr)
  | add (a b : FExpr)
  | sub (a b : FExpr)
  | mul (a b : FExpr)
  | div (a b : FExpr)
  | mod (a b : FExpr)
  | lt (a b : FExpr)
  | le (a b : FExpr)
  | gt (a b : FExpr)
  | ge (a b : FExpr)
  | eq (a b : FExpr)
  | ne (a b : FExpr)
  | cond (c a b : FExpr)
  | call (fn : String) (args : List FExpr)
  | lookupTable (table : String) (key : FExpr)

/-- Association-list lookup, modelling JavaScript `record[key]` on an
insertion-ordered object. -/
def alookup {α : Type} (m : List (String × α)) (k : String) : Option α :=
  (m.find? (fun p => p.1 = k)).map Prod.snd

/-- The `tables` argument of `evaluateFormula`:
`Record<string, Record<string, number>>`. -/
abbrev FormulaTables := List (String × List (String × ℚ))

/-- JavaScript `String(key)` for the values a `lookup` key can evaluate to. -/
def jsValToString : MVal → String
  | .num q => if q.den = 1 then toString q.num else toString q
  | .posInf => "Infinity"
  | .negInf => "-Infinity"
  | .nan => "NaN"
  | .bool b => if b then "true" else "false"

/-- The `lookup` closure the calculator adds to the evaluation scope: a missing
table or key throws, naming the table and key. -/
def lookupClosure (tables : Option FormulaTables) (tableName : String)
    (key : MVal) : Except FormulaError MVal :=
  match tables with
  | none => .error (.tableNotFound tableName)
  | some ts =>
    match alookup ts tableName with
    | none => .error (.tableNotFound tableName)
    | some tbl =>
      match alookup tbl (jsValToString key) with
      | none => .error (.keyNotFound tableName (jsValToString key))
      | some v => .ok (.num v)

mutual

/-- Evaluation of a parsed formula against the configured math.js instance.
Identifiers resolve only in the supplied scope (an unresolved identifier is a
hard error); function names resolve in the instance's function table. -/
def evalFExpr (ctx : List (String × ℚ)) (tables : Option FormulaTables) :
    FExpr → Except FormulaError MVal
  | .num q => .ok (.num q)
  | .var n =>
      match alookup ctx n with
      | some q => .ok (.num q)
      | none => .error (.undefinedSymbol n)
  | .neg e => do
      let v ← evalFExpr ctx tables e
      pure (MVal.subV (.num 0) v)
  | .add a b => do
      let x ← evalFExpr ctx tables a
      let y ← evalFExpr ctx tables b
      pure (x.addV y)
  | .sub a b => do
      let x ← evalFExpr ctx tables a
      let y ← evalFExpr ctx tables b
      pure (x.subV y)
  | .mul a b => do
      let x ← evalFExpr ctx tables a
      let y ← evalFExpr ctx tables b
      pure (x.mulV y)
  | .div a b => do
      let x ← evalFExpr ctx tables a
      let y ← evalFExpr ctx tables b
      pure (x.divV y)
  | .mod a b => do
      let x ← evalFExpr ctx tables a
      let y ← evalFExpr ctx tables b
      pure (x.modV y)
  | .lt a b => do
      let x ← evalFExpr ctx tables a
      let y ← evalFExpr ctx tables b
      pure (x.cmpLt y)
  | .le a b => do
      let x ← evalFExpr ctx tables a
      let y ← evalFExpr ctx tables b
      pure ((y.cmpLt x).notB)
  | .gt a b => do
      let x ← evalFExpr ctx tables a
      let y ← evalFExpr ctx tables b
      pure (y.cmpLt x)
  | .ge a b => do
      let x ← evalFExpr ctx tables a
      let y ← evalFExpr ctx tables b
      pure ((x.cmpLt y).notB)
  | .eq a b => do
      let x ← evalFExpr ctx tables a
      let y ← evalFExpr ctx tables b
      pure (x.cmpEq y)
  | .ne a b => do
      let x ← evalFExpr ctx tables a
      let y ← evalFExpr ctx tables b
      pure ((x.cmpEq y).notB)
  | .cond c a b => do
      let t ← evalFExpr ctx tables c
      if t.truthy then evalFExpr ctx tables a else evalFExpr ctx tables b
  | .call fn args => do
      let vs ← evalFExprList ctx tables args
      applyMathFunction fn vs
  | .lookupTable t k => do
      let kv ← evalFExpr ctx tables k
      lookupClosure tables t kv

/-- Left-to-right evaluation of a function's argument list. -/
def evalFExprList (ctx : List (String × ℚ)) (tables : Option FormulaTables) :
    List FExpr → Except FormulaError (List MVal)
  | [] => .ok []
  | e :: es => do
      let v ← evalFExpr ctx tables e
      let vs ← evalFExprList ctx tables es
      pure (v :: vs)

end

/-- `evaluateFormula(formula, context, tables?)`: evaluates the formula with
the context variables plus the `lookup` closure in scope, then rejects any
result that is not a finite number
(`typeof result !== 'number' || !isFinite(result)`); every error is rethrown. -/
def evaluateFormula (formula : FExpr) (context : List (String × ℚ))
    (tables : Option FormulaTables) : Except FormulaError ℚ :=
  match evalFExpr context tables formula with
  | .error e => .error e
  | .ok (.num q) => .ok q
  | .ok _ => .error .notFiniteResult

-- =============================================================================
-- FORMULA EVALUATOR WITH THE HOST PRNG MADE EXPLICIT
--
-- The instance built by `create(all)` also exposes math.js `random` (it is
-- not among the six disabled names), whose result comes from the host's
-- hidden, process-global PRNG.  To state what the code does on a formula that
-- calls `random()`, this second copy of the evaluator threads that hidden
-- state explicitly: `rng : ℕ → ℚ` is the sequence of values the host PRNG
-- will produce, and a counter says how many have been consumed.  Every other
-- function behaves exactly as in `applyMathFunction`.
-- =============================================================================

/-- `applyMathFunction` with the host PRNG explicit: the zero-argument
`random()` (the only form the formulas at issue use; it is part of math.js
`all` and not disabled) draws the next PRNG value, a finite number in [0,1);
every other call is the pure table. -/
def applyMathFunctionR (rng : ℕ → ℚ) (name : String) (args : List MVal)
    (n : ℕ) : Except FormulaError (MVal × ℕ) :=
  if name = "random" ∧ args = [] then .ok (.num (rng n), n + 1)
  else
    match applyMathFunction name args with
    | .error e => .error e
    | .ok v => .ok (v, n)

mutual

/-- `evalFExpr` with the host PRNG threaded through evaluation order
(left to right, as math.js evaluates). -/
def evalFExprR (rng : ℕ → ℚ) (ctx : List (String × ℚ))
    (tables : Option FormulaTables) :
    FExpr → ℕ → Except FormulaError (MVal × ℕ)
  | .num q, n => .ok (.num q, n)
  | .var v, n =>
      match alookup ctx v with
      | some q => .ok (.num q, n)
      | none => .error (.undefinedSymbol v)
  | .neg e, n => do
      let (v, n') ← evalFExprR rng ctx tables e n
      pure (MVal.subV (.num 0) v, n')
  | .add a b, n => do
      let (x, n') ← evalFExprR rng ctx tables a n
      let (y, n'') ← evalFExprR rng ctx tables b n'
      pure (x.addV y, n'')
  | .sub a b, n => do
      let (x, n') ← evalFExprR rng ctx tables a n
      let (y, n'') ← evalFExprR rng ctx tables b n'
      pure (x.subV y, n'')
  | .mul a b, n => do
      let (x, n') ← evalFExprR rng ctx tables a n
      let (y, n'') ← evalFExprR rng ctx tables b n'
      pure (x.mulV y, n'')
  | .div a b, n => do
      let (x, n') ← evalFExprR rng ctx tables a n
      let (y, n'') ← evalFExprR rng ctx tables b n'
      pure (x.divV y, n'')
  | .mod a b, n => do
      let (x, n') ← evalFExprR rng ctx tables a n
      let (y, n'') ← evalFExprR rng ctx tables b n'
      pure (x.modV y, n'')
  | .lt a b, n => do
      let (x, n') ← evalFExprR rng ctx tables a n
      let (y, n'') ← evalFExprR rng ctx tables b n'
      pure (x.cmpLt y, n'')
  | .le a b, n => do
      let (x, n') ← evalFExprR rng ctx tables a n
      let (y, n'') ← evalFExprR rng ctx tables b n'
      pure ((y.cmpLt x).notB, n'')
  | .gt a b, n => do
      let (x, n') ← evalFExprR rng ctx tables a n
      let (y, n'') ← evalFExprR rng ctx tables b n'
      pure (y.cmpLt x, n'')
  | .ge a b, n => do
      let (x, n') ← evalFExprR rng ctx tables a n
      let (y, n'') ← evalFExprR rng ctx tables b n'
      pure ((x.cmpLt y).notB, n'')
  | .eq a b, n => do
      let (x, n') ← evalFExprR rng ctx tables a n
      let (y, n'') ← evalFExprR rng ctx tables b n'
      pure (x.cmpEq y, n'')
  | .ne a b, n => do
      let (x, n') ← evalFExprR rng ctx tables a n
      let (y, n'') ← evalFExprR rng ctx tables b n'
      pure ((x.cmpEq y).notB, n'')
  | .cond c a b, n => do
      let (t, n') ← evalFExprR rng ctx tables c n
      if t.truthy then evalFExprR rng ctx tables a n'
      else evalFExprR rng ctx tables b n'
  | .call fn args, n => do
      let (vs, n') ← evalFExprListR rng ctx tables args n
      applyMathFunctionR rng fn vs n'
  | .lookupTable t k, n => do
      let (kv, n') ← evalFExprR rng ctx tables k n
      let v ← lookupClosure tables t kv
      pure (v, n')

/-- Argument-list evaluation with the host PRNG threaded. -/
def evalFExprListR (rng : ℕ → ℚ) (ctx : List (String × ℚ))
    (tables : Option FormulaTables) :
    List FExpr → ℕ → Except FormulaError (List MVal × ℕ)
  | [], n => .ok ([], n)
  | e :: es, n => do
      let (v, n') ← evalFExprR rng ctx tables e n
      let (vs, n'') ← evalFExprListR rng ctx tables es n'
      pure (v :: vs, n'')

end

/-- `evaluateFormula` with the host PRNG explicit: a fresh random number is a
finite number, so it passes the `isFinite` check and is returned. -/
def evaluateFormulaR (rng : ℕ → ℚ) (formula : FExpr)
    (context : List (String × ℚ)) (tables : Option FormulaTables) (n : ℕ) :
    Except FormulaError (ℚ × ℕ) :=
  match evalFExprR rng context tables formula n with
  | .error e => .error e
  | .ok (.num q, n') => .ok (q, n')
  | .ok _ => .error .notFiniteResult

-- =============================================================================
-- DATA MODEL (src/types: characterState / gameData)
--
-- Only the fields the calculator reads are carried; `Record` objects become
-- insertion-ordered association lists, optional fields become `Option`.
-- =============================================================================

/-- The six ability keys (`AbilityKey`). -/
inductive AbilityKey where
  | str | dex | con | int | wis | cha
deriving DecidableEq, Repr

/-- Six named numbers (`AbilityScores` / `AbilityModifiers`). -/
structure AbilityScores where
  str : ℚ
  dex : ℚ
  con : ℚ
  int : ℚ
  wis : ℚ
  cha : ℚ
deriving DecidableEq, Repr

/-- `AbilityModifiers extends AbilityScores`. -/
abbrev AbilityModifiers := AbilityScores

/-- Field read `scores[ability]`. -/
def AbilityScores.get (s : AbilityScores) : AbilityKey → ℚ
  | .str => s.str
  | .dex => s.dex
  | .con => s.con
  | .int => s.int
  | .wis => s.wis
  | .cha => s.cha

/-- Field write `scores[ability] = v`. -/
def AbilityScores.set (s : AbilityScores) : AbilityKey → ℚ → AbilityScores
  | .str, v => { s with str := v }
  | .dex, v => { s with dex := v }
  | .con, v => { s with con := v }
  | .int, v => { s with int := v }
  | .wis, v => { s with wis := v }
  | .cha, v => { s with cha := v }

/-- The string form of an ability key, as it appears in choice payloads. -/
def abilityKeyOfString : String → Option AbilityKey
  | "str" => some .str
  | "dex" => some .dex
  | "con" => some .con
  | "int" => some .int
  | "wis" => some .wis
  | "cha" => some .cha
  | _ => none

/-- `ClassLevel`: one entry of the character's ordered class list. -/
structure ClassLevel where
  classKey : String
  level : ℕ
  subclassKey : Option String := none
deriving DecidableEq, Repr

/-- `EquipmentSlot` (fields the calculator reads). -/
structure EquipmentSlot where
  itemKey : String
  equipped : Bool
deriving DecidableEq, Repr

/-- The `source` tag of a recorded `FeatureChoice`. -/
inductive ChoiceSource where
  | classSrc | race | background | feat
deriving DecidableEq, Repr

/-- `FeatureChoice`: a recorded decision; `chosen` is a string or a string
list. -/
structure FeatureChoice where
  featureId : String
  chosen : String ⊕ List String
  source : ChoiceSource
deriving DecidableEq, Repr

/-- `CharacterState` (fields the calculator reads; identity, currency and the
other session fields it merely spreads through are omitted). -/
structure CharacterState where
  raceKey : String
  subraceKey : Option String := none
  classes : List ClassLevel
  backgroundKey : String
  baseAbilityScores : AbilityScores
  choices : List FeatureChoice := []
  feats : List String := []
  equipment : List EquipmentSlot := []
  currentHp : ℚ := 0
  tempHp : ℚ := 0
  hitDiceUsed : List (String × ℚ) := []
deriving DecidableEq, Repr

/-- `ChoiceData.type`. -/
inductive ChoiceType where
  | skill | language | tool | feat | spell | ability | custom
deriving DecidableEq, Repr

/-- `ChoiceData` (the calculator only inspects its presence and its type). -/
structure ChoiceData where
  ctype : ChoiceType
deriving DecidableEq, Repr

/-- `Partial<Proficiencies>` as granted by races and feats. -/
structure ProficiencyGrants where
  armor : Option (List String) := none
  weapons : Option (List String) := none
  tools : Option (List String) := none
  skills : Option (List String) := none
  languages : Option (List String) := none
deriving DecidableEq, Repr

/-- `TraitData.grants`. -/
structure TraitGrants where
  proficiencies : Option ProficiencyGrants := none
  resistances : Option (List String) := none
  immunities : Option (List String) := none
  senses : Option (List (String × ℚ)) := none
deriving DecidableEq, Repr

/-- `TraitData`: a race or subrace trait. -/
structure TraitData where
  name : String
  description : String := ""
  grants : Option TraitGrants := none
  choices : Option ChoiceData := none
deriving DecidableEq, Repr

/-- `SpeedInfo`. -/
structure SpeedInfo where
  walk : ℚ
  fly : Option ℚ := none
  swim : Option ℚ := none
  climb : Option ℚ := none
  burrow : Option ℚ := none
deriving DecidableEq, Repr

/-- `number | SpeedInfo`, the two shapes a race speed can take. -/
abbrev NumOrSpeed := ℚ ⊕ SpeedInfo

/-- `SubraceData.overrides`. -/
structure SubraceOverrides where
  speed : Option NumOrSpeed := none
deriving DecidableEq, Repr

/-- `SubraceData`. -/
structure SubraceData where
  key : String
  abilityBonuses : Option (List (AbilityKey × ℚ)) := none
  traits : Option (List TraitData) := none
  overrides : Option SubraceOverrides := none
deriving DecidableEq, Repr

/-- `RaceData` (fields the calculator reads). -/
structure RaceData where
  key : String
  speed : NumOrSpeed := .inl 30
  abilityBonuses : List (AbilityKey × ℚ) := []
  traits : List TraitData := []
  subraces : Option (List SubraceData) := none
  proficiencies : Option ProficiencyGrants := none
deriving DecidableEq, Repr

/-- The closed caster-type set of `ClassSpellcastingData.type`. -/
inductive CasterType where
  | full | half | third | pact
deriving DecidableEq, Repr

/-- The key under which a caster type appears in
`rules.multiclassSpellSlots.casterLevelMultipliers`. -/
def CasterType.key : CasterType → String
  | .full => "full"
  | .half => "half"
  | .third => "third"
  | .pact => "pact"

/-- `ClassSpellcastingData` (fields the calculator reads). -/
structure ClassSpellcastingData where
  ability : AbilityKey
  ctype : CasterType
  ritual : Option Bool := none
  spellbook : Option Bool := none
  cantripsKnownTable : Option (List ℚ) := none
  spellsKnownTable : Option (List ℚ) := none
deriving DecidableEq, Repr

/-- `ClassFeatureData` (fields the calculator reads). -/
structure ClassFeatureData where
  name : String
  level : ℕ
  description : String := ""
  choices : Option ChoiceData := none
deriving DecidableEq, Repr

/-- `SubclassData` (fields the calculator reads). -/
structure SubclassData where
  key : String
  features : List ClassFeatureData := []
  spellcasting : Option ClassSpellcastingData := none
deriving DecidableEq, Repr

/-- `ClassData` (fields the calculator reads).  `toolProficiencies` is
`string[] | ChoiceData` in the source and is only used when it is an array
(`Array.isArray`); `none` covers both absence and the `ChoiceData` shape. -/
structure ClassData where
  key : String
  hitDie : ℕ
  savingThrowProficiencies : List AbilityKey := []
  armorProficiencies : List String := []
  weaponProficiencies : List String := []
  toolProficiencies : Option (List String) := none
  features : List ClassFeatureData := []
  spellcasting : Option ClassSpellcastingData := none
  subclasses : List SubclassData := []
deriving DecidableEq, Repr

/-- `BackgroundData.feature`. -/
structure BackgroundFeature where
  name : String
  description : String := ""
deriving DecidableEq, Repr

/-- `BackgroundData` (fields the calculator reads); `toolProficiencies` as in
`ClassData`. -/
structure BackgroundData where
  key : String
  skillProficiencies : List String := []
  toolProficiencies : Option (List String) := none
  feature : Option BackgroundFeature := none
deriving DecidableEq, Repr

/-- `FeatData.grants`. -/
structure FeatGrants where
  abilityIncrease : Option ChoiceData := none
  proficiencies : Option ProficiencyGrants := none
deriving DecidableEq, Repr

/-- `FeatData` (fields the calculator reads). -/
structure FeatData where
  key : String
  name : String
  description : String := ""
  grants : Option FeatGrants := none
deriving DecidableEq, Repr

/-- `ItemData.armorType`, a closed set in the source types. -/
inductive ArmorType where
  | light | medium | heavy | shield
deriving DecidableEq, Repr

/-- `ItemData` (fields the calculator reads). -/
structure ItemData where
  key : String
  name : String
  armorClass : Option ℚ := none
  armorType : Option ArmorType := none
deriving DecidableEq, Repr

/-- `rules.skills` entry (fields the calculator reads). -/
structure SkillDef where
  ability : AbilityKey
deriving DecidableEq, Repr

/-- The two members of `rules.formulas` the calculator evaluates, already in
parsed form (the source stores them as strings and parses them with math.js). -/
structure FormulasConfig where
  abilityModifier : FExpr
  proficiencyBonus : FExpr

/-- `rules.multiclassSpellSlots`. -/
structure MulticlassSpellSlotsConfig where
  table : List (String × List ℚ) := []
  casterLevelMultipliers : List (String × ℚ) := []

/-- `RulesConfig` (fields the calculator reads).  `abilities` carries the key
order of the `rules.abilities` record, over which the calculator iterates. -/
structure RulesConfig where
  formulas : FormulasConfig
  abilities : List AbilityKey
  skills : List (String × SkillDef) := []
  proficiencyBonusTable : List (String × ℚ) := []
  multiclassSpellSlots : MulticlassSpellSlotsConfig := {}

/-- `GameData` (the keyed content tables the calculator reads, plus the
rules; the spells table is never read by the calculator and is omitted). -/
structure GameData where
  races : List (String × RaceData) := []
  classes : List (String × ClassData) := []
  backgrounds : List (String × BackgroundData) := []
  feats : List (String × FeatData) := []
  items : List (String × ItemData) := []
  rules : RulesConfig

-- =============================================================================
-- COMPUTED OUTPUT TYPES
-- =============================================================================

/-- `ProficiencyLevel`. -/
inductive ProficiencyLevel where
  | none | proficient | expertise
deriving DecidableEq, Repr

/-- `SkillInfo`. -/
structure SkillInfo where
  modifier : ℚ
  proficiency : ProficiencyLevel
  ability : AbilityKey
  passive : ℚ
deriving DecidableEq, Repr

/-- `SavingThrowInfo`. -/
structure SavingThrowInfo where
  modifier : ℚ
  proficient : Bool
deriving DecidableEq, Repr

/-- One value of the `hitDice` record of `HPInfo`. -/
structure HitDiceEntry where
  total : ℚ
  used : ℚ
deriving DecidableEq, Repr

/-- `HPInfo`. -/
structure HPInfo where
  max : ℚ
  current : ℚ
  temp : ℚ
  hitDice : List (String × HitDiceEntry)
deriving DecidableEq, Repr

/-- `ACInfo`. -/
structure ACInfo where
  value : ℚ
  source : String
  breakdown : List String
deriving DecidableEq, Repr

/-- `Proficiencies`. -/
structure Proficiencies where
  armor : List String := []
  weapons : List String := []
  tools : List String := []
  skills : List String := []
  savingThrows : List AbilityKey := []
  languages : List String := []
deriving DecidableEq, Repr

/-- `Feature.source`. -/
inductive FeatureSource where
  | race | classSrc | background | feat | item
deriving DecidableEq, Repr

/-- `Feature` (an aggregated feature entry; `choicesMade` is never written by
the calculator and is omitted). -/
structure Feature where
  id : String
  name : String
  source : FeatureSource
  sourceKey : String
  level : Option ℕ := none
  description : String := ""
  hasChoices : Option Bool := none
deriving DecidableEq, Repr

/-- `SpellcastingInfo`; fields the source leaves `undefined` on one of the two
branches are `Option`. -/
structure SpellcastingInfo where
  ability : AbilityKey
  attackBonus : ℚ
  saveDC : ℚ
  spellSlots : Option (List ℚ) := none
  pactSlots : Option ℕ := none
  pactSlotLevel : Option ℕ := none
  cantripsKnown : ℚ := 0
  spellsKnown : Option ℚ := none
  ritualCasting : Option Bool := none
  spellbook : Option Bool := none
deriving DecidableEq, Repr

/-- `ComputedCharacter`: the computed slices, plus the spread-through input
state (`...state`) carried as one field. -/
structure ComputedCharacter where
  state : CharacterState
  baseAbilityScores : AbilityScores
  abilityScores : AbilityScores
  abilityModifiers : AbilityModifiers
  totalLevel : ℕ
  proficiencyBonus : ℚ
  savingThrows : List (AbilityKey × SavingThrowInfo)
  skills : List (String × SkillInfo)
  hp : HPInfo
  ac : ACInfo
  initiative : ℚ
  speed : SpeedInfo
  features : List Feature
  proficiencies : Proficiencies
  spellcasting : Option SpellcastingInfo
  resistances : List String
  immunities : List String
  vulnerabilities : List String
  conditionImmunities : List String
  senses : List (String × ℚ)
deriving DecidableEq, Repr

-- =============================================================================
-- SMALL JAVASCRIPT HELPERS USED BY THE CALCULATOR
-- =============================================================================

/-- `str.includes(pat)` for the non-empty literal patterns the calculator
uses. -/
def strContains (s pat : String) : Bool :=
  2 ≤ (s.splitOn pat).length

/-- `parseInt(s, 10)`: optional leading whitespace and sign, then the longest
digit prefix; no digits parse to `NaN`, modelled as `none`. -/
def jsParseInt (s : String) : Option ℤ :=
  let digitsVal : List Char → Option ℤ := fun cs =>
    let ds := cs.takeWhile Char.isDigit
    if ds.isEmpty then none
    else some (ds.foldl (fun a c => a * 10 + ((c.toNat : ℤ) - 48)) 0)
  match s.data.dropWhile Char.isWhitespace with
  | '-' :: rest => (digitsVal rest).map (fun n => -n)
  | '+' :: rest => digitsVal rest
  | cs => digitsVal cs

/-- `\s+` replacement state machine: each maximal whitespace run becomes one
dash (the boolean records whether the previous character was whitespace). -/
def collapseWhitespace : Bool → List Char → List Char
  | _, [] => []
  | prev, c :: rest =>
    if c.isWhitespace then
      if prev then collapseWhitespace true rest
      else '-' :: collapseWhitespace true rest
    else c :: collapseWhitespace false rest

/-- `name.toLowerCase().replace(/\s+/g, '-')`, the feature-id slug. -/
def slugify (s : String) : String :=
  String.mk (collapseWhitespace false (s.data.map Char.toLower))

/-- The `addUnique` helper of `computeProficiencies`: append the items not
already present, keeping first-occurrence order. -/
def addUnique {α : Type} [DecidableEq α] (arr items : List α) : List α :=
  items.foldl (fun a i => if i ∈ a then a else a ++ [i]) arr

-- =============================================================================
-- ABILITY SCORES (computeAbilityModifiers / computeAbilityScores)
-- =============================================================================

/-- A record with every ability at zero: the `{} as AbilityModifiers` seed of
the reduce in `computeAbilityModifiers` (missing keys of the JavaScript object
read as `undefined`; the calculator always iterates over every key of
`rules.abilities`, which covers all six in well-formed data). -/
def zeroAbilityScores : AbilityScores :=
  { str := 0, dex := 0, con := 0, int := 0, wis := 0, cha := 0 }

/-- `computeAbilityModifiers(scores, rules)`: for each key of
`rules.abilities`, evaluate `rules.formulas.abilityModifier` with `score`
bound to that ability's value. -/
def computeAbilityModifiers (scores : AbilityScores) (rules : RulesConfig) :
    Except FormulaError AbilityModifiers :=
  rules.abilities.foldlM
    (fun mods a => do
      let m ← evaluateFormula rules.formulas.abilityModifier [("score", scores.get a)] none
      pure (mods.set a m))
    zeroAbilityScores

/-- Fold a bonus list (`Object.entries` of a `Partial<AbilityScores>`) into the
running scores. -/
def applyAbilityBonuses (base : AbilityScores) (bonuses : List (AbilityKey × ℚ)) :
    AbilityScores :=
  bonuses.foldl (fun b p => b.set p.1 (b.get p.1 + p.2)) base

/-- One `"ability:amount"` entry of an ability-score-improvement choice:
split on `:`, require both parts non-empty, parse the amount and add it.
(A JavaScript corner is flattened here: an unknown ability name would create a
stray object property and an unparseable amount would poison the score with
`NaN`; neither occurs in structurally valid choice data, and both are modelled
as no-ops on the six tracked scores.) -/
def applyAbilityChoiceEntry (b : AbilityScores) (s : String) : AbilityScores :=
  match s.splitOn ":" with
  | a :: amount :: _ =>
    if a.isEmpty || amount.isEmpty then b
    else
      match abilityKeyOfString a, jsParseInt amount with
      | some k, some n => b.set k (b.get k + (n : ℚ))
      | _, _ => b
  | _ => b

/-- The ability-score-improvement pass of `computeAbilityScores`: for every
class, every feature at or below the class level whose choice type is
`ability`, find the recorded choice `{classKey}-{level}-{featureName}` and
apply its array entries. -/
def applyClassASIs (state : CharacterState) (data : GameData)
    (base : AbilityScores) : AbilityScores :=
  state.classes.foldl
    (fun b cl =>
      match alookup data.classes cl.classKey with
      | none => b
      | some cd =>
        cd.features.foldl
          (fun b f =>
            if f.level ≤ cl.level ∧ (f.choices.map ChoiceData.ctype) = some .ability then
              match state.choices.find?
                  (fun c => c.featureId = cl.classKey ++ "-" ++ toString f.level ++ "-" ++ f.name) with
              | some ch =>
                match ch.chosen with
                | .inr entries => entries.foldl applyAbilityChoiceEntry b
                | .inl _ => b
              | none => b
            else b)
          b)
    base

/-- The feat pass of `computeAbilityScores`: for every taken feat that grants
an ability increase, find the recorded choice `feat-{featKey}-ability` and, if
its payload is a single string, apply it. -/
def applyFeatAbilityBonuses (state : CharacterState) (data : GameData)
    (base : AbilityScores) : AbilityScores :=
  state.feats.foldl
    (fun b fk =>
      match alookup data.feats fk with
      | none => b
      | some feat =>
        match feat.grants with
        | none => b
        | some g =>
          if g.abilityIncrease.isSome then
            match state.choices.find? (fun c => c.featureId = "feat-" ++ fk ++ "-ability") with
            | some ch =>
              match ch.chosen with
              | .inl s => applyAbilityChoiceEntry b s
              | .inr _ => b
            | none => b
          else b)
    base

/-- The final cap of `computeAbilityScores`: every score is clamped to 20. -/
def capAbilityScores (b : AbilityScores) : AbilityScores :=
  { str := min b.str 20, dex := min b.dex 20, con := min b.con 20,
    int := min b.int 20, wis := min b.wis 20, cha := min b.cha 20 }

/-- `computeAbilityScores(state, data)`: base scores, then race bonuses, then
subrace bonuses (when a subrace is selected and found), then class
ability-score improvements, then feat bonuses, then the cap at 20.
A class key absent from `data.classes` is skipped (`if (!classData) continue`). -/
def computeAbilityScores (state : CharacterState) (data : GameData) :
    AbilityScores :=
  let base := state.baseAbilityScores
  let race := alookup data.races state.raceKey
  let base := match race with
    | some r => applyAbilityBonuses base r.abilityBonuses
    | none => base
  let base := match state.subraceKey, race.bind RaceData.subraces with
    | some sk, some srs =>
      match srs.find? (fun sr => sr.key = sk) with
      | some sr =>
        match sr.abilityBonuses with
        | some bs => applyAbilityBonuses base bs
        | none => base
      | none => base
    | _, _ => base
  let base := applyClassASIs state data base
  let base := applyFeatAbilityBonuses state data base
  capAbilityScores base

-- =============================================================================
-- LEVEL AND PROFICIENCY BONUS
-- =============================================================================

/-- `computeTotalLevel(classes)`: the sum of the per-class levels. -/
def computeTotalLevel (classes : List ClassLevel) : ℕ :=
  (classes.map ClassLevel.level).sum

/-- `computeProficiencyBonus(totalLevel, rules)`.  The source guards the table
entry with JavaScript truthiness (`if (rules.proficiencyBonusTable[...])`), so
an entry equal to 0 falls through to the formula exactly like a missing
entry. -/
def computeProficiencyBonus (totalLevel : ℕ) (rules : RulesConfig) :
    Except FormulaError ℚ :=
  match alookup rules.proficiencyBonusTable (toString totalLevel) with
  | some b =>
    if b = 0 then
      evaluateFormula rules.formulas.proficiencyBonus [("totalLevel", (totalLevel : ℚ))] none
    else .ok b
  | none =>
    evaluateFormula rules.formulas.proficiencyBonus [("totalLevel", (totalLevel : ℚ))] none

-- =============================================================================
-- PROFICIENCIES (computeProficiencies)
-- =============================================================================

/-- The `Partial<Proficiencies>` merge used for race and feat grants (the five
fields the source reads there, in its order). -/
def addProficiencyGrants (p : Proficiencies) (g : ProficiencyGrants) :
    Proficiencies :=
  let p := match g.armor with | some xs => { p with armor := addUnique p.armor xs } | none => p
  let p := match g.weapons with | some xs => { p with weapons := addUnique p.weapons xs } | none => p
  let p := match g.tools with | some xs => { p with tools := addUnique p.tools xs } | none => p
  let p := match g.skills with | some xs => { p with skills := addUnique p.skills xs } | none => p
  match g.languages with | some xs => { p with languages := addUnique p.languages xs } | none => p

/-- `computeProficiencies(state, data)`: merge, de-duplicating, from the first
class, the race, the background, the recorded race/background choices, and the
feats, in source order. -/
def computeProficiencies (state : CharacterState) (data : GameData) :
    Proficiencies :=
  let p : Proficiencies := {}
  -- From first class
  let p := match state.classes with
    | [] => p
    | c0 :: _ =>
      match alookup data.classes c0.classKey with
      | none => p
      | some cd =>
        let p := { p with armor := addUnique p.armor cd.armorProficiencies }
        let p := { p with weapons := addUnique p.weapons cd.weaponProficiencies }
        let p := { p with savingThrows := addUnique p.savingThrows cd.savingThrowProficiencies }
        let p := match state.choices.find?
            (fun c => c.featureId = cd.key ++ "-skills" ∧ c.source = .classSrc) with
          | some ch =>
            match ch.chosen with
            | .inr xs => { p with skills := addUnique p.skills xs }
            | .inl _ => p
          | none => p
        match cd.toolProficiencies with
        | some xs => { p with tools := addUnique p.tools xs }
        | none => p
  -- From race
  let p := match (alookup data.races state.raceKey).bind RaceData.proficiencies with
    | some g => addProficiencyGrants p g
    | none => p
  -- From background
  let p := match alookup data.backgrounds state.backgroundKey with
    | some bg =>
      let p := { p with skills := addUnique p.skills bg.skillProficiencies }
      match bg.toolProficiencies with
      | some xs => { p with tools := addUnique p.tools xs }
      | none => p
    | none => p
  -- Process choices
  let p := state.choices.foldl
    (fun p c =>
      if c.source = .background ∨ c.source = .race then
        match c.chosen with
        | .inr xs =>
          let p := if strContains c.featureId "language" then { p with languages := addUnique p.languages xs } else p
          let p := if strContains c.featureId "tool" then { p with tools := addUnique p.tools xs } else p
          if strContains c.featureId "skill" then { p with skills := addUnique p.skills xs } else p
        | .inl _ => p
      else p)
    p
  -- From feats
  state.feats.foldl
    (fun p fk =>
      match (alookup data.feats fk).bind FeatData.grants with
      | some g =>
        match g.proficiencies with
        | some fp => addProficiencyGrants p fp
        | none => p
      | none => p)
    p

-- =============================================================================
-- SKILLS AND SAVING THROWS
-- =============================================================================

/-- `computeSkills(abilityModifiers, proficiencies, proficiencyBonus, rules,
expertiseSkills = [])`: one entry per skill of `rules.skills`, expertise
dominating proficiency, passive = 10 + modifier. -/
def computeSkills (abilityModifiers : AbilityModifiers)
    (proficiencies : Proficiencies) (proficiencyBonus : ℚ)
    (rules : RulesConfig) (expertiseSkills : List String) :
    List (String × SkillInfo) :=
  rules.skills.map (fun p =>
    let abilityMod := abilityModifiers.get p.2.ability
    let pm : ProficiencyLevel × ℚ :=
      if p.1 ∈ expertiseSkills then (.expertise, abilityMod + proficiencyBonus * 2)
      else if p.1 ∈ proficiencies.skills then (.proficient, abilityMod + proficiencyBonus)
      else (.none, abilityMod)
    (p.1, { modifier := pm.2, proficiency := pm.1, ability := p.2.ability,
            passive := 10 + pm.2 }))

/-- `computeSavingThrows(abilityModifiers, proficiencies, proficiencyBonus,
rules)`: one entry per key of `rules.abilities`. -/
def computeSavingThrows (abilityModifiers : AbilityModifiers)
    (proficiencies : Proficiencies) (proficiencyBonus : ℚ)
    (rules : RulesConfig) : List (AbilityKey × SavingThrowInfo) :=
  rules.abilities.map (fun a =>
    let proficient := a ∈ proficiencies.savingThrows
    (a, { modifier := abilityModifiers.get a + (if proficient then proficiencyBonus else 0),
          proficient := proficient }))

-- =============================================================================
-- HIT POINTS (computeHP)
-- =============================================================================

/-- The "average roll" of a hit die: `Math.ceil(hitDie / 2) + 1`. -/
def hitDieAverageRoll (hitDie : ℕ) : ℚ :=
  (⌈(hitDie : ℚ) / 2⌉ : ℚ) + 1

/-- The max-HP contribution of one class entry.  The first listed class
(`classLevel === state.classes[0]`, which for JSON-parsed state is exactly the
element at index 0) contributes the full hit die plus CON modifier
unconditionally, plus the average roll for each level from 2 up; every other
class contributes the average roll for each level from 1 up.  A class key
absent from `data.classes` contributes nothing (`if (!classData) continue`). -/
def classHPContribution (data : GameData) (conModifier : ℚ) (isFirst : Bool)
    (cl : ClassLevel) : ℚ :=
  match alookup data.classes cl.classKey with
  | none => 0
  | some cd =>
    if isFirst then
      (cd.hitDie : ℚ) + conModifier
        + ((cl.level - 1 : ℕ) : ℚ) * (hitDieAverageRoll cd.hitDie + conModifier)
    else ((cl.level : ℕ) : ℚ) * (hitDieAverageRoll cd.hitDie + conModifier)

/-- The accumulated `maxHp` of `computeHP` over the class list. -/
def computeHPmax (state : CharacterState) (conModifier : ℚ) (data : GameData) : ℚ :=
  match state.classes with
  | [] => 0
  | c0 :: rest =>
    classHPContribution data conModifier true c0
      + (rest.map (classHPContribution data conModifier false)).sum

/-- `hitDice[die] = {total: 0, used: 0}` if absent, then
`hitDice[die].total += level`, preserving object key insertion order. -/
def hdAddTotal (m : List (String × HitDiceEntry)) (die : String) (lvl : ℚ) :
    List (String × HitDiceEntry) :=
  match m with
  | [] => [(die, { total := lvl, used := 0 })]
  | (k, e) :: rest =>
    if k = die then (k, { e with total := e.total + lvl }) :: rest
    else (k, e) :: hdAddTotal rest die lvl

/-- One step of the hit-dice accumulation: a resolvable class adds its level
to its `d{hitDie}` bucket, an unresolvable one is skipped. -/
def buildHitDiceStep (data : GameData) (m : List (String × HitDiceEntry))
    (cl : ClassLevel) : List (String × HitDiceEntry) :=
  match alookup data.classes cl.classKey with
  | none => m
  | some cd => hdAddTotal m ("d" ++ toString cd.hitDie) ((cl.level : ℕ) : ℚ)

/-- The hit-dice record built from the class list: one `d{hitDie}` bucket per
resolvable class, totals accumulated in list order. -/
def buildHitDice (data : GameData) (classes : List ClassLevel) :
    List (String × HitDiceEntry) :=
  classes.foldl (buildHitDiceStep data) []

/-- `if (hitDice[die]) hitDice[die].used = used`: set the `used` count of an
existing bucket; a die with no bucket is left untouched (the entry is
dropped). -/
def hdSetUsed (m : List (String × HitDiceEntry)) (die : String) (used : ℚ) :
    List (String × HitDiceEntry) :=
  match m with
  | [] => []
  | (k, e) :: rest =>
    if k = die then (k, { e with used := used }) :: rest
    else (k, e) :: hdSetUsed rest die used

/-- The `state.hitDiceUsed` pass of `computeHP`: each entry updates the
matching bucket, if any. -/
def applyHitDiceUsed (m : List (String × HitDiceEntry))
    (usedEntries : List (String × ℚ)) : List (String × HitDiceEntry) :=
  usedEntries.foldl (fun m p => hdSetUsed m p.1 p.2) m

/-- `computeHP(state, conModifier, data)`. -/
def computeHP (state : CharacterState) (conModifier : ℚ) (data : GameData) :
    HPInfo :=
  { max := max 1 (computeHPmax state conModifier data),
    current := state.currentHp,
    temp := state.tempHp,
    hitDice := applyHitDiceUsed (buildHitDice data state.classes) state.hitDiceUsed }

-- =============================================================================
-- ARMOR CLASS (computeAC)
-- =============================================================================

/-- The `state.equipment.find` condition for armor: an equipped slot whose
item exists, has an armor classification, and is not a shield. -/
def equippedArmorSlot (state : CharacterState) (data : GameData) :
    Option EquipmentSlot :=
  state.equipment.find? (fun e =>
    e.equipped &&
      match alookup data.items e.itemKey with
      | some it =>
        match it.armorType with
        | some t => decide (t ≠ ArmorType.shield)
        | none => false
      | none => false)

/-- The `state.equipment.find` condition for a shield. -/
def equippedShieldSlot (state : CharacterState) (data : GameData) :
    Option EquipmentSlot :=
  state.equipment.find? (fun e =>
    e.equipped &&
      match alookup data.items e.itemKey with
      | some it => decide (it.armorType = some ArmorType.shield)
      | none => false)

/-- The first matching equipped non-shield armor item itself. -/
def firstEquippedArmor (state : CharacterState) (data : GameData) :
    Option ItemData :=
  (equippedArmorSlot state data).bind (fun s => alookup data.items s.itemKey)

/-- The AC the equipped shield adds: its `armorClass` when it is present and
truthy (`if (shield?.armorClass)`), otherwise nothing. -/
def shieldAddedAC (state : CharacterState) (data : GameData) : Option ℚ :=
  match (equippedShieldSlot state data).bind (fun s => alookup data.items s.itemKey) with
  | some sh =>
    match sh.armorClass with
    | some q => if q = 0 then none else some q
    | none => none
  | none => none

/-- The shield's numeric contribution to the total AC. -/
def shieldACBonus (state : CharacterState) (data : GameData) : ℚ :=
  (shieldAddedAC state data).getD 0

/-- `computeAC(state, abilityModifiers, data, rules)`: base 10 plus full DEX
when unarmored; with armor equipped, the armor's AC with full DEX (light),
DEX capped at 2 (medium) or no DEX (heavy); an equipped shield's AC is added
on top.  (The `rules` parameter is unused by the source body.) -/
def computeAC (state : CharacterState) (abilityModifiers : AbilityModifiers)
    (data : GameData) (_rules : RulesConfig) : ACInfo :=
  let dexIn := abilityModifiers.dex
  -- (baseAC, dexBonus, source, breakdown) after the armor branch
  let core : ℚ × ℚ × String × List String :=
    match equippedArmorSlot state data with
    | some slot =>
      match alookup data.items slot.itemKey with
      | some armor =>
        match armor.armorClass with
        | some ac =>
          match armor.armorType with
          | some .light =>
            (ac, dexIn, armor.name,
              [armor.name ++ ": " ++ toString ac, "Dexterity: +" ++ toString dexIn])
          | some .medium =>
            (ac, min dexIn 2, armor.name,
              [armor.name ++ ": " ++ toString ac,
               "Dexterity (max 2): +" ++ toString (min dexIn 2)])
          | some .heavy =>
            (ac, 0, armor.name, [armor.name ++ ": " ++ toString ac])
          | _ => (ac, dexIn, armor.name, [])
        | none => (10, dexIn, "Unarmored", [])
      | none => (10, dexIn, "Unarmored", [])
    | none =>
      (10, dexIn, "Unarmored", ["Base: 10", "Dexterity: +" ++ toString dexIn])
  let shieldLines : List String :=
    match shieldAddedAC state data with
    | some q => ["Shield: +" ++ toString q]
    | none => []
  { value := core.1 + core.2.1 + shieldACBonus state data,
    source := core.2.2.1,
    breakdown := core.2.2.2 ++ shieldLines }

-- =============================================================================
-- SPEED (computeSpeed)
-- =============================================================================

/-- The object-spread merge `{...speed, ...override}` for structured speed
overrides. -/
def mergeSpeed (a b : SpeedInfo) : SpeedInfo :=
  { walk := b.walk,
    fly := b.fly <|> a.fly,
    swim := b.swim <|> a.swim,
    climb := b.climb <|> a.climb,
    burrow := b.burrow <|> a.burrow }

/-- `computeSpeed(state, data)`: default walk 30, race scalar or structured
speed, then the selected subrace's override when it is truthy (a scalar 0 is
falsy in the source's `if (subrace?.overrides?.speed)` guard and is
ignored). -/
def computeSpeed (state : CharacterState) (data : GameData) : SpeedInfo :=
  let race := alookup data.races state.raceKey
  let speed : SpeedInfo :=
    match race with
    | some r =>
      match r.speed with
      | .inl n => { walk := n }
      | .inr s => s
    | none => { walk := 30 }
  match state.subraceKey, race.bind RaceData.subraces with
  | some sk, some srs =>
    match (srs.find? (fun sr => sr.key = sk)).bind SubraceData.overrides with
    | some ov =>
      match ov.speed with
      | some (.inl n) => if n = 0 then speed else { speed with walk := n }
      | some (.inr s) => mergeSpeed speed s
      | none => speed
    | none => speed
  | _, _ => speed

-- =============================================================================
-- FEATURES (computeFeatures)
-- =============================================================================

/-- The feature entries of a race's traits. -/
def raceTraitFeatures (r : RaceData) : List Feature :=
  r.traits.map (fun t =>
    { id := "race-" ++ r.key ++ "-" ++ slugify t.name,
      name := t.name, source := .race, sourceKey := r.key,
      description := t.description, hasChoices := some t.choices.isSome })

/-- The feature entries of the selected subrace's traits. -/
def subraceTraitFeatures (sr : SubraceData) : List Feature :=
  (sr.traits.getD []).map (fun t =>
    { id := "subrace-" ++ sr.key ++ "-" ++ slugify t.name,
      name := t.name, source := .race, sourceKey := sr.key,
      description := t.description, hasChoices := some t.choices.isSome })

/-- The selected subrace of the character's race, if any. -/
def selectedSubrace (state : CharacterState) (data : GameData) :
    Option SubraceData :=
  match state.subraceKey, (alookup data.races state.raceKey).bind RaceData.subraces with
  | some sk, some srs => srs.find? (fun sr => sr.key = sk)
  | _, _ => none

/-- The feature entries of one class entry: the class features at or below the
class level, then (when a subclass is selected and found) the subclass
features at or below the class level.  A class key absent from `data.classes`
yields nothing. -/
def classLevelFeatures (data : GameData) (cl : ClassLevel) : List Feature :=
  match alookup data.classes cl.classKey with
  | none => []
  | some cd =>
    ((cd.features.filter (fun f => f.level ≤ cl.level)).map (fun f =>
      { id := "class-" ++ cd.key ++ "-" ++ toString f.level ++ "-" ++ slugify f.name,
        name := f.name, source := .classSrc, sourceKey := cd.key,
        level := some f.level, description := f.description,
        hasChoices := some f.choices.isSome }))
    ++ (match cl.subclassKey with
      | some sk =>
        match cd.subclasses.find? (fun sc => sc.key = sk) with
        | some sub =>
          (sub.features.filter (fun f => f.level ≤ cl.level)).map (fun f =>
            { id := "subclass-" ++ sub.key ++ "-" ++ toString f.level ++ "-" ++ slugify f.name,
              name := f.name, source := .classSrc, sourceKey := sub.key,
              level := some f.level, description := f.description,
              hasChoices := some f.choices.isSome })
        | none => []
      | none => [])

/-- `computeFeatures(state, data)`: race traits, subrace traits, per-class
(and subclass) leveled features, the background feature, one entry per feat. -/
def computeFeatures (state : CharacterState) (data : GameData) : List Feature :=
  (match alookup data.races state.raceKey with
    | some r => raceTraitFeatures r
    | none => [])
  ++ (match selectedSubrace state data with
    | some sr => subraceTraitFeatures sr
    | none => [])
  ++ (state.classes.map (classLevelFeatures data)).flatten
  ++ (match (alookup data.backgrounds state.backgroundKey) with
    | some bg =>
      match bg.feature with
      | some f =>
        [{ id := "background-" ++ bg.key ++ "-feature", name := f.name,
           source := .background, sourceKey := bg.key,
           description := f.description }]
      | none => []
    | none => [])
  ++ (state.feats.map (fun fk =>
      match alookup data.feats fk with
      | some feat =>
        [{ id := "feat-" ++ feat.key, name := feat.name, source := .feat,
           sourceKey := feat.key, description := feat.description,
           hasChoices := some (feat.grants.bind FeatGrants.abilityIncrease).isSome }]
      | none => [])).flatten

-- =============================================================================
-- SPELLCASTING
-- =============================================================================

/-- `getPactSlots(level)`: the fixed pact-slot-count step table. -/
def getPactSlots (level : ℕ) : ℕ :=
  if level < 1 then 0
  else if level < 2 then 1
  else if level < 11 then 2
  else if level < 17 then 3
  else 4

/-- `getPactSlotLevel(level)`: the fixed pact-slot-level step table. -/
def getPactSlotLevel (level : ℕ) : ℕ :=
  if level < 1 then 0
  else if level < 3 then 1
  else if level < 5 then 2
  else if level < 7 then 3
  else if level < 9 then 4
  else 5

/-- The primary-spellcasting scan: the first class whose class data (or,
failing that, whose selected subclass) declares a spellcasting descriptor,
together with that class's level.  Scanning stops at the first match. -/
def scanPrimarySpellcasting (data : GameData) :
    List ClassLevel → Option (ClassSpellcastingData × ℕ)
  | [] => none
  | cl :: rest =>
    let cdOpt := alookup data.classes cl.classKey
    match cdOpt.bind ClassData.spellcasting with
    | some sc => some (sc, cl.level)
    | none =>
      match cl.subclassKey with
      | some sk =>
        match (cdOpt.bind (fun cd => cd.subclasses.find? (fun s => s.key = sk))).bind
            SubclassData.spellcasting with
        | some sc => some (sc, cl.level)
        | none => scanPrimarySpellcasting data rest
      | none => scanPrimarySpellcasting data rest

/-- The spellcasting descriptor a class entry contributes to the multiclass
caster level: the class's own, or else the selected subclass's. -/
def classSpellcastingOf (data : GameData) (cl : ClassLevel) :
    Option ClassSpellcastingData :=
  let cdOpt := alookup data.classes cl.classKey
  match cdOpt.bind ClassData.spellcasting with
  | some sc => some sc
  | none =>
    (match cl.subclassKey with
      | some sk => (cdOpt.bind (fun cd => cd.subclasses.find? (fun s => s.key = sk))).bind SubclassData.spellcasting
      | none => none)

/-- The effective multiclass caster level:
`Σ floor(classLevel × casterLevelMultipliers[type])` over the classes with a
spellcasting descriptor (`|| 0` for a missing multiplier). -/
def multiclassCasterLevel (state : CharacterState) (data : GameData)
    (rules : RulesConfig) : ℤ :=
  state.classes.foldl
    (fun acc cl =>
      match classSpellcastingOf data cl with
      | some sc =>
        let multiplier :=
          (alookup rules.multiclassSpellSlots.casterLevelMultipliers sc.ctype.key).getD 0
        acc + ⌊((cl.level : ℕ) : ℚ) * multiplier⌋
      | none => acc)
    0

/-- `table?.[level - 1] || 0` for the by-level cantrip table (a level of 0
indexes at -1 and reads `undefined`, hence 0). -/
def cantripsKnownAt (sc : ClassSpellcastingData) (level : ℕ) : ℚ :=
  match sc.cantripsKnownTable with
  | none => 0
  | some t => if level = 0 then 0 else (t.get? (level - 1)).getD 0

/-- `spellsKnownTable?.[level - 1]` (no defaulting; `undefined` stays
absent). -/
def spellsKnownAt (sc : ClassSpellcastingData) (level : ℕ) : Option ℚ :=
  sc.spellsKnownTable.bind (fun t => if level = 0 then none else t.get? (level - 1))

/-- `computeSpellcasting(state, abilityModifiers, proficiencyBonus, data,
rules)`: no descriptor means no block at all; a pact primary uses the two pact
step tables; otherwise the effective caster level indexes the shared
multiclass slot table (`|| []` on a missing entry). -/
def computeSpellcasting (state : CharacterState)
    (abilityModifiers : AbilityModifiers) (proficiencyBonus : ℚ)
    (data : GameData) (rules : RulesConfig) : Option SpellcastingInfo :=
  match scanPrimarySpellcasting data state.classes with
  | none => none
  | some (sc, primaryLevel) =>
    let spellMod := abilityModifiers.get sc.ability
    if sc.ctype = .pact then
      some { ability := sc.ability,
             attackBonus := proficiencyBonus + spellMod,
             saveDC := 8 + proficiencyBonus + spellMod,
             cantripsKnown := cantripsKnownAt sc primaryLevel,
             pactSlots := some (getPactSlots primaryLevel),
             pactSlotLevel := some (getPactSlotLevel primaryLevel),
             ritualCasting := sc.ritual }
    else
      let casterLevel := multiclassCasterLevel state data rules
      let spellSlots : List ℚ :=
        if 0 < casterLevel then
          (alookup rules.multiclassSpellSlots.table (toString casterLevel)).getD []
        else []
      some { ability := sc.ability,
             attackBonus := proficiencyBonus + spellMod,
             saveDC := 8 + proficiencyBonus + spellMod,
             spellSlots := some spellSlots,
             cantripsKnown := cantripsKnownAt sc primaryLevel,
             spellsKnown := spellsKnownAt sc primaryLevel,
             ritualCasting := sc.ritual,
             spellbook := sc.spellbook }

-- =============================================================================
-- MAIN COMPUTATION (computeCharacter)
-- =============================================================================

/-- `Object.assign(senses, ...)`: merge a source record into a destination,
replacing values of existing keys in place and appending new keys. -/
def recordAssignKey (m : List (String × ℚ)) (k : String) (v : ℚ) :
    List (String × ℚ) :=
  match m with
  | [] => [(k, v)]
  | (k', v') :: rest =>
    if k' = k then (k', v) :: rest else (k', v') :: recordAssignKey rest k v

/-- `Object.assign` over all entries of the source record. -/
def recordAssign (dst src : List (String × ℚ)) : List (String × ℚ) :=
  src.foldl (fun m p => recordAssignKey m p.1 p.2) dst

/-- The trailing aggregation block of `computeCharacter`: senses, resistances
and immunities collected from the declared grants of the race's traits (the
source reads only `race.traits`, never the selected subrace's traits). -/
def aggregateRaceGrants (state : CharacterState) (data : GameData) :
    List (String × ℚ) × List String × List String :=
  match alookup data.races state.raceKey with
  | none => ([], [], [])
  | some r =>
    r.traits.foldl
      (fun acc t =>
        match t.grants with
        | none => acc
        | some g =>
          let senses := match g.senses with
            | some s => recordAssign acc.1 s
            | none => acc.1
          let res := match g.resistances with
            | some rs => acc.2.1 ++ rs
            | none => acc.2.1
          let imm := match g.immunities with
            | some is' => acc.2.2 ++ is'
            | none => acc.2.2
          (senses, res, imm))
      ([], [], [])

/-- `computeCharacter(state, data)`: the full pipeline in source order.
The two formula-evaluating stages can throw; every other stage is total.
`computeSkills` is called without an expertise argument, so the default empty
expertise list applies. -/
def computeCharacter (state : CharacterState) (data : GameData) :
    Except FormulaError ComputedCharacter := do
  let rules := data.rules
  let abilityScores := computeAbilityScores state data
  let abilityModifiers ← computeAbilityModifiers abilityScores rules
  let totalLevel := computeTotalLevel state.classes
  let proficiencyBonus ← computeProficiencyBonus totalLevel rules
  let proficiencies := computeProficiencies state data
  let skills := computeSkills abilityModifiers proficiencies proficiencyBonus rules []
  let savingThrows := computeSavingThrows abilityModifiers proficiencies proficiencyBonus rules
  let hp := computeHP state abilityModifiers.con data
  let ac := computeAC state abilityModifiers data rules
  let speed := computeSpeed state data
  let initiative := abilityModifiers.dex
  let features := computeFeatures state data
  let spellcasting := computeSpellcasting state abilityModifiers proficiencyBonus data rules
  let grants := aggregateRaceGrants state data
  pure { state := state,
         baseAbilityScores := state.baseAbilityScores,
         abilityScores := abilityScores,
         abilityModifiers := abilityModifiers,
         totalLevel := totalLevel,
         proficiencyBonus := proficiencyBonus,
         savingThrows := savingThrows,
         skills := skills,
         hp := hp,
         ac := ac,
         initiative := initiative,
         speed := speed,
         features := features,
         proficiencies := proficiencies,
         spellcasting := spellcasting,
         resistances := grants.2.1,
         immunities := grants.2.2,
         vulnerabilities := [],
         conditionImmunities := [],
         senses := grants.1 }

/-- Decidable equality for `Except` results, used to evaluate the engine on
concrete inputs inside proofs. -/
instance instDecEqExcept {ε α : Type} [DecidableEq ε] [DecidableEq α] :
    DecidableEq (Except ε α) := fun a b =>
  match a, b with
  | .error e, .error e' =>
    if h : e = e' then .isTrue (by rw [h])
    else .isFalse (by intro hh; cases hh; exact h rfl)
  | .ok x, .ok y =>
    if h : x = y then .isTrue (by rw [h])
    else .isFalse (by intro hh; cases hh; exact h rfl)
  | .error _, .ok _ => .isFalse (by intro hh; cases hh)
  | .ok _, .error _ => .isFalse (by intro hh; cases hh)

-- =============================================================================
-- MAIN COMPUTATION WITH THE HOST PRNG MADE EXPLICIT
--
-- The same pipeline as `computeCharacter`, but with the two
-- formula-evaluating stages running on the PRNG-explicit evaluator.  Only
-- `computeAbilityModifiers` and `computeProficiencyBonus` evaluate formulas;
-- every other stage is the unchanged pure function.
-- =============================================================================

/-- `computeAbilityModifiers` over the PRNG-explicit evaluator. -/
def computeAbilityModifiersR (rng : ℕ → ℚ) (scores : AbilityScores)
    (rules : RulesConfig) (n : ℕ) :
    Except FormulaError (AbilityModifiers × ℕ) :=
  rules.abilities.foldlM
    (fun acc a => do
      let (m, n') ← evaluateFormulaR rng rules.formulas.abilityModifier
        [("score", scores.get a)] none acc.2
      pure (acc.1.set a m, n'))
    (zeroAbilityScores, n)

/-- `computeProficiencyBonus` over the PRNG-explicit evaluator. -/
def computeProficiencyBonusR (rng : ℕ → ℚ) (totalLevel : ℕ)
    (rules : RulesConfig) (n : ℕ) : Except FormulaError (ℚ × ℕ) :=
  match alookup rules.proficiencyBonusTable (toString totalLevel) with
  | some b =>
    if b = 0 then
      evaluateFormulaR rng rules.formulas.proficiencyBonus
        [("totalLevel", (totalLevel : ℚ))] none n
    else .ok (b, n)
  | none =>
    evaluateFormulaR rng rules.formulas.proficiencyBonus
      [("totalLevel", (totalLevel : ℚ))] none n

/-- `computeCharacter` with the host PRNG explicit: the result depends on the
PRNG stream whenever a formula reaches `random()`. -/
def computeCharacterR (rng : ℕ → ℚ) (state : CharacterState)
    (data : GameData) : Except FormulaError ComputedCharacter := do
  let rules := data.rules
  let abilityScores := computeAbilityScores state data
  let (abilityModifiers, n₁) ← computeAbilityModifiersR rng abilityScores rules 0
  let totalLevel := computeTotalLevel state.classes
  let (proficiencyBonus, _) ← computeProficiencyBonusR rng totalLevel rules n₁
  let proficiencies := computeProficiencies state data
  let skills := computeSkills abilityModifiers proficiencies proficiencyBonus rules []
  let savingThrows := computeSavingThrows abilityModifiers proficiencies proficiencyBonus rules
  let hp := computeHP state abilityModifiers.con data
  let ac := computeAC state abilityModifiers data rules
  let speed := computeSpeed state data
  let initiative := abilityModifiers.dex
  let features := computeFeatures state data
  let spellcasting := computeSpellcasting state abilityModifiers proficiencyBonus data rules
  let grants := aggregateRaceGrants state data
  pure { state := state,
         baseAbilityScores := state.baseAbilityScores,
         abilityScores := abilityScores,
         abilityModifiers := abilityModifiers,
         totalLevel := totalLevel,
         proficiencyBonus := proficiencyBonus,
         savingThrows := savingThrows,
         skills := skills,
         hp := hp,
         ac := ac,
         initiative := initiative,
         speed := speed,
         features := features,
         proficiencies := proficiencies,
         spellcasting := spellcasting,
         resistances := grants.2.1,
         immunities := grants.2.2,
         vulnerabilities := [],
         conditionImmunities := [],
         senses := grants.1 }

-- =============================================================================
-- SPEC-SIDE DEFINITIONS
-- =============================================================================

/-- Spec-side restatement of the hit-point convention, following the spec's
words: the first class contributes its full hit die plus CON modifier for
level 1 and `ceil(hitDie/2) + 1 + CON` for each further level; every other
class contributes `ceil(hitDie/2) + 1 + CON` for each of its levels. -/
def specClassHP (data : GameData) (con : ℚ) (isFirst : Bool) (cl : ClassLevel) : ℚ :=
  let die := ((alookup data.classes cl.classKey).map ClassData.hitDie).getD 0
  if isFirst then
    (die : ℚ) + con + ((cl.level - 1 : ℕ) : ℚ) * ((⌈(die : ℚ) / 2⌉ : ℚ) + 1 + con)
  else ((cl.level : ℕ) : ℚ) * ((⌈(die : ℚ) / 2⌉ : ℚ) + 1 + con)

/-- Spec-side total of the per-level hit-point contributions over the class
list. -/
def specHPTotal (state : CharacterState) (con : ℚ) (data : GameData) : ℚ :=
  match state.classes with
  | [] => 0
  | c0 :: rest =>
    specClassHP data con true c0 + (rest.map (specClassHP data con false)).sum

-- =============================================================================
-- CONCRETE FIXTURES
-- =============================================================================

/-- The default rules of the shipped dataset: the standard ability-modifier
and proficiency-bonus formulas, all six abilities, two skills. -/
def sampleRules : RulesConfig :=
  { formulas :=
      { abilityModifier := .call "floor" [.div (.sub (.var "score") (.num 10)) (.num 2)],
        proficiencyBonus := .add (.num 1) (.call "ceil" [.div (.var "totalLevel") (.num 4)]) },
    abilities := [.str, .dex, .con, .int, .wis, .cha],
    skills := [("athletics", ⟨.str⟩), ("stealth", ⟨.dex⟩)] }

/-- A small dataset: a race whose selected subrace declares resistance and
sense grants, one fighter class, one background. -/
def sampleData : GameData :=
  { races := [("tiefling",
      { key := "tiefling",
        traits := [{ name := "Hellish Resistance",
                     grants := some { resistances := some ["cold"] } }],
        subraces := some [
          { key := "variant",
            traits := some [{ name := "Sunborn",
                              grants := some { resistances := some ["fire"],
                                               senses := some [("darkvision", 120)] } }] }] })],
    classes := [("fighter", { key := "fighter", hitDie := 10,
                              savingThrowProficiencies := [.str, .con] })],
    backgrounds := [("soldier", { key := "soldier", skillProficiencies := ["athletics"] })],
    rules := sampleRules }

/-- A level-3 fighter of the sample race with the subrace selected. -/
def sampleState : CharacterState :=
  { raceKey := "tiefling", subraceKey := some "variant",
    classes := [{ classKey := "fighter", level := 3 }],
    backgroundKey := "soldier",
    baseAbilityScores := { str := 15, dex := 14, con := 12, int := 8, wis := 10, cha := 13 } }

/-- An empty computed character, used only as the `Option.getD` fallback in
witness statements. -/
def emptyComputed : ComputedCharacter :=
  { state := { raceKey := "", classes := [], backgroundKey := "",
               baseAbilityScores := zeroAbilityScores },
    baseAbilityScores := zeroAbilityScores,
    abilityScores := zeroAbilityScores,
    abilityModifiers := zeroAbilityScores,
    totalLevel := 0, proficiencyBonus := 0,
    savingThrows := [], skills := [],
    hp := { max := 1, current := 0, temp := 0, hitDice := [] },
    ac := { value := 10, source := "Unarmored", breakdown := [] },
    initiative := 0, speed := { walk := 30 }, features := [],
    proficiencies := {}, spellcasting := none,
    resistances := [], immunities := [], vulnerabilities := [],
    conditionImmunities := [], senses := [] }

/-- Rules whose ability-modifier formula is `random()` — accepted by the
evaluator because of the sandbox leak. -/
def randomRules : RulesConfig :=
  { formulas :=
      { abilityModifier := .call "random" [],
        proficiencyBonus := .num 2 },
    abilities := [.str, .dex, .con, .int, .wis, .cha],
    skills := [("athletics", ⟨.str⟩)] }

/-- Data carrying the `random()` ability-modifier formula. -/
def randomData : GameData :=
  { rules := randomRules }

/-- A minimal state for the `random()` formula run. -/
def randomState : CharacterState :=
  { raceKey := "human", classes := [], backgroundKey := "sage",
    baseAbilityScores := { str := 10, dex := 10, con := 10, int := 10, wis := 10, cha := 10 } }

/-- A state whose only class key resolves to nothing in `sampleData`. -/
def ghostState : CharacterState :=
  { raceKey := "nobody", classes := [{ classKey := "mystery", level := 5 }],
    backgroundKey := "wanderer",
    baseAbilityScores := { str := 10, dex := 10, con := 10, int := 10, wis := 10, cha := 10 } }

/-- The pact spellcasting descriptor of the warlock fixture. -/
def warlockSpellcasting : ClassSpellcastingData :=
  { ability := .cha, ctype := .pact, cantripsKnownTable := some [2, 2, 2] }

/-- A pact-caster class fixture. -/
def warlockClass : ClassData :=
  { key := "warlock", hitDie := 8, spellcasting := some warlockSpellcasting }

/-- Data containing just the warlock class and the sample rules. -/
def pactData : GameData :=
  { classes := [("warlock", warlockClass)], rules := sampleRules }

/-- A level-3 warlock. -/
def pactState : CharacterState :=
  { raceKey := "human", classes := [{ classKey := "warlock", level := 3 }],
    backgroundKey := "sage",
    baseAbilityScores := { str := 10, dex := 10, con := 10, int := 10, wis := 10, cha := 16 } }

/-- Rules whose proficiency-bonus table has an explicit entry 0 at level 3
while the formula is the constant 7. -/
def zeroEntryRules : RulesConfig :=
  { formulas :=
      { abilityModifier := .call "floor" [.div (.sub (.var "score") (.num 10)) (.num 2)],
        proficiencyBonus := .num 7 },
    abilities := [.str, .dex, .con, .int, .wis, .cha],
    proficiencyBonusTable := [("3", 0)] }

/-- Rules whose proficiency-bonus table has a nonzero entry at level 1. -/
def tableEntryRules : RulesConfig :=
  { formulas :=
      { abilityModifier := .call "floor" [.div (.sub (.var "score") (.num 10)) (.num 2)],
        proficiencyBonus := .num 7 },
    abilities := [.str, .dex, .con, .int, .wis, .cha],
    proficiencyBonusTable := [("1", 2)] }

/-- Items for the armor-class fixture: medium armor and a shield. -/
def armorData : GameData :=
  { items := [("scale-mail", { key := "scale-mail", name := "Scale Mail",
                               armorClass := some 14, armorType := some .medium }),
              ("shield", { key := "shield", name := "Shield",
                           armorClass := some 2, armorType := some .shield })],
    rules := sampleRules }

/-- A character wearing the medium armor (no shield equipped). -/
def armorState : CharacterState :=
  { raceKey := "human", classes := [{ classKey := "fighter", level := 1 }],
    backgroundKey := "soldier",
    baseAbilityScores := { str := 10, dex := 18, con := 10, int := 10, wis := 10, cha := 10 },
    equipment := [{ itemKey := "scale-mail", equipped := true },
                  { itemKey := "shield", equipped := false }] }

/-- Ability modifiers with a +4 DEX modifier, for the armor-class witness. -/
def dex4Modifiers : AbilityModifiers :=
  { str := 0, dex := 4, con := 0, int := 0, wis := 0, cha := 0 }

/-- Data with a d8 class, for the hit-point witness. -/
def rogueData : GameData :=
  { classes := [("rogue", { key := "rogue", hitDie := 8 })], rules := sampleRules }

/-- A single-class level-1 rogue. -/
def rogueState : CharacterState :=
  { raceKey := "human", classes := [{ classKey := "rogue", level := 1 }],
    backgroundKey := "urchin",
    baseAbilityScores := { str := 10, dex := 10, con := 12, int := 10, wis := 10, cha := 10 } }

/-- A fighter whose `hitDiceUsed` names a die (`d12`) that no class grants. -/
def strayDiceState : CharacterState :=
  { raceKey := "human", classes := [{ classKey := "fighter", level := 1 }],
    backgroundKey := "soldier",
    baseAbilityScores := { str := 10, dex := 10, con := 10, int := 10, wis := 10, cha := 10 },
    hitDiceUsed := [("d12", 2)] }

/-- The sample fighter with two of its granted `d10` hit dice spent. -/
def usedDiceState : CharacterState :=
  { sampleState with hitDiceUsed := [("d10", 2)] }

-- =============================================================================
-- HELPER LEMMAS
-- =============================================================================

/-- Association lookup on a cons cell. -/
theorem alookup_cons {α : Type} (k : String) (v : α) (rest : List (String × α))
    (key : String) :
    alookup ((k, v) :: rest) key = if k = key then some v else alookup rest key := by
  by_cases h : k = key <;> simp [alookup, List.find?, h]

/-- `computeSkills` with an empty expertise list never emits expertise. -/
theorem computeSkills_empty_expertise (mods : AbilityModifiers)
    (profs : Proficiencies) (pb : ℚ) (rules : RulesConfig) :
    ∀ p ∈ computeSkills mods profs pb rules [],
      p.2.proficiency ≠ ProficiencyLevel.expertise := by
  intro p hp
  simp only [computeSkills, List.mem_map] at hp
  obtain ⟨q, hq, rfl⟩ := hp
  simp only [List.not_mem_nil, if_false]
  split <;> simp

-- =============================================================================
-- CLAIM THEOREMS
-- =============================================================================

/-- C1 (failing input for the determinism claim): `random` is not among the
six disabled functions, so a `GameData` whose ability-modifier formula is
`random()` evaluates against the host's hidden process-global PRNG; with that
state made explicit, two runs of the pipeline on the very same
`CharacterState` and `GameData` but different ambient PRNG streams return
different results — `computeCharacter` is not a pure function of its two
inputs. -/
theorem computeCharacter_not_deterministic_with_random :
    "random" ∉ disabledFunctions ∧
    computeCharacterR (fun _ => 0) randomState randomData
      ≠ computeCharacterR (fun _ => 1/2) randomState randomData := by
  refine ⟨by decide, ?_⟩
  with_unfolding_all decide

/-- C2 (failing input for the sandbox claim): `square` is outside the spec's
fixed whitelist, yet `evaluateFormula` evaluates `square(3)` to a value
instead of raising, because `create(all)` loads the full math.js function set
and only six names (`import`, `createUnit`, `evaluate`, `parse`, `simplify`,
`derivative`) are disabled — in particular `random` is not among them. -/
theorem evaluateFormula_square_escapes_sandbox :
    "square" ∉ specFormulaWhitelist ∧ "random" ∉ disabledFunctions ∧
    evaluateFormula (FExpr.call "square" [FExpr.num 3]) [] none = .ok 9 := by
  refine ⟨by decide, by decide, ?_⟩
  with_unfolding_all decide

/-- C9 (failing input): with the subrace selected and declaring a fire
resistance and darkvision, `computeCharacter` returns only the race trait's
cold resistance and no senses — the aggregation block reads `race.traits`
only and drops the subrace's declared grants. -/
theorem subrace_grants_dropped_at_failing_input :
    (selectedSubrace sampleState sampleData).map SubraceData.key = some "variant" ∧
    (computeCharacter sampleState sampleData).toOption.map
      (fun c => (c.resistances, c.immunities, c.senses)) =
      some (["cold"], [], []) := by
  constructor
  · decide
  · with_unfolding_all decide

/-- C10: every skill computed through the public pipeline has proficiency
`none` or `proficient`, never `expertise`, because `computeCharacter` invokes
`computeSkills` with the default empty expertise list. -/
theorem computeCharacter_no_expertise (state : CharacterState) (data : GameData)
    (c : ComputedCharacter) (h : computeCharacter state data = .ok c) :
    ∀ p ∈ c.skills, p.2.proficiency ≠ ProficiencyLevel.expertise := by
  unfold computeCharacter at h
  cases hm : computeAbilityModifiers (computeAbilityScores state data) data.rules with
  | error e => simp [hm, Bind.bind, Except.bind] at h
  | ok mods =>
    cases hb : computeProficiencyBonus (computeTotalLevel state.classes) data.rules with
    | error e => simp [hm, hb, Bind.bind, Except.bind] at h
    | ok pb =>
      simp only [hm, hb, Bind.bind, Except.bind, pure, Except.pure, Except.ok.injEq] at h
      subst h
      exact computeSkills_empty_expertise mods _ pb data.rules

/-- C10 witness: the sample character computes successfully and none of its
skills is at expertise. -/
theorem computeCharacter_no_expertise_witness :
    ((computeCharacter sampleState sampleData).toOption.getD emptyComputed).skills.all
      (fun p => decide (p.2.proficiency ≠ ProficiencyLevel.expertise)) = true := by
  rw [List.all_eq_true]
  intro p hp
  exact decide_eq_true
    (computeCharacter_no_expertise sampleState sampleData
      ((computeCharacter sampleState sampleData).toOption.getD emptyComputed)
      (by with_unfolding_all decide) p hp)

/-- C4 counterexample: at pact class level 3 the code computes pact slot
level 2, not 1 — the claim's own step table ("slot level 1 until level 3")
gives 2 at level 3, and so does `getPactSlotLevel`. -/
theorem pact_slot_level_at_3_cex :
    getPactSlots 3 = 2 ∧ getPactSlotLevel 3 = 2 ∧ getPactSlotLevel 3 ≠ 1 := by
  decide

/-- C4 amended: for a pact-caster primary class at level `L ≥ 1`,
`computeSpellcasting` reports pact slots and pact slot level from the two
fixed step tables (slots: 1 below level 2, 2 below 11, 3 below 17, 4 after;
slot level: 1 below level 3, 2 below 5, 3 below 7, 4 below 9, 5 after); in
particular a level-3 pact caster has 2 slots of slot level 2. -/
theorem pact_magic_step_tables (state : CharacterState) (data : GameData)
    (mods : AbilityModifiers) (pb : ℚ) (rules : RulesConfig)
    (cl : ClassLevel) (rest : List ClassLevel)
    (cd : ClassData) (sc : ClassSpellcastingData)
    (hcl : state.classes = cl :: rest)
    (hcd : alookup data.classes cl.classKey = some cd)
    (hsc : cd.spellcasting = some sc)
    (hpact : sc.ctype = .pact)
    (hL : 1 ≤ cl.level) :
    ((computeSpellcasting state mods pb data rules).map SpellcastingInfo.pactSlots
        = some (some (getPactSlots cl.level)))
    ∧ ((computeSpellcasting state mods pb data rules).map SpellcastingInfo.pactSlotLevel
        = some (some (getPactSlotLevel cl.level)))
    ∧ getPactSlots cl.level =
        (if cl.level < 2 then 1 else if cl.level < 11 then 2
         else if cl.level < 17 then 3 else 4)
    ∧ getPactSlotLevel cl.level =
        (if cl.level < 3 then 1 else if cl.level < 5 then 2 else if cl.level < 7 then 3
         else if cl.level < 9 then 4 else 5) := by
  have hscan : scanPrimarySpellcasting data state.classes = some (sc, cl.level) := by
    rw [hcl]
    simp [scanPrimarySpellcasting, hcd, hsc]
  refine ⟨?_, ?_, ?_, ?_⟩
  · simp [computeSpellcasting, hscan, hpact]
  · simp [computeSpellcasting, hscan, hpact]
  · unfold getPactSlots; split_ifs <;> omega
  · unfold getPactSlotLevel; split_ifs <;> omega

/-- C4 witness: the level-3 warlock fixture gets 2 pact slots of slot
level 2. -/
theorem pact_magic_step_tables_witness :
    ((computeSpellcasting pactState zeroAbilityScores 2 pactData pactData.rules).map
        SpellcastingInfo.pactSlots = some (some 2))
    ∧ ((computeSpellcasting pactState zeroAbilityScores 2 pactData pactData.rules).map
        SpellcastingInfo.pactSlotLevel = some (some 2)) := by
  have h := pact_magic_step_tables pactState pactData zeroAbilityScores 2 pactData.rules
    ⟨"warlock", 3, none⟩ [] warlockClass warlockSpellcasting rfl (by decide) (by decide)
    (by decide) (by decide)
  exact ⟨h.1, h.2.1⟩

/-- C5 counterexample: with an explicit table entry of 0 at level 3 and the
constant formula 7, `computeProficiencyBonus` returns the formula's 7, not the
table's 0 — the JavaScript truthiness guard `if (table[level])` treats a 0
entry like a missing one. -/
theorem proficiency_bonus_zero_entry_cex :
    alookup zeroEntryRules.proficiencyBonusTable "3" = some 0 ∧
    computeProficiencyBonus 3 zeroEntryRules = .ok 7 := by
  constructor
  · decide
  · with_unfolding_all decide

/-- C5 amended: an explicit table entry takes precedence over the formula
whenever it is present and nonzero; when the entry is absent or 0 the formula
`rules.formulas.proficiencyBonus` is evaluated with `totalLevel` bound. -/
theorem proficiency_bonus_table_precedence (L : ℕ) (rules : RulesConfig) :
    (∀ b, alookup rules.proficiencyBonusTable (toString L) = some b → b ≠ 0 →
      computeProficiencyBonus L rules = .ok b)
    ∧ ((alookup rules.proficiencyBonusTable (toString L) = none ∨
        alookup rules.proficiencyBonusTable (toString L) = some 0) →
      computeProficiencyBonus L rules =
        evaluateFormula rules.formulas.proficiencyBonus [("totalLevel", (L : ℚ))] none) := by
  constructor
  · intro b hb hnz
    simp [computeProficiencyBonus, hb, hnz]
  · rintro (h | h) <;> simp [computeProficiencyBonus, h]

/-- C5 witness: a nonzero table entry (2 at level 1) is returned untouched. -/
theorem proficiency_bonus_table_precedence_witness :
    computeProficiencyBonus 1 tableEntryRules = .ok 2 :=
  (proficiency_bonus_table_precedence 1 tableEntryRules).1 2 (by decide) (by decide)

/-- C6: the AC armor-type law — with the first matching equipped non-shield
armor item of armor class `ac` and DEX modifier `d`, the AC value is
`ac + d` for light armor, `ac + min(d, 2)` for medium armor, and `ac` alone
for heavy armor; with no equipped armor it is `10 + d`; the equipped shield's
contribution (`shieldACBonus`) is added on top in every case. -/
theorem computeAC_armor_type_law (state : CharacterState) (mods : AbilityModifiers)
    (data : GameData) (rules : RulesConfig) :
    (∀ it ac, firstEquippedArmor state data = some it → it.armorClass = some ac →
      ((it.armorType = some .light →
        (computeAC state mods data rules).value = ac + mods.dex + shieldACBonus state data)
       ∧ (it.armorType = some .medium →
        (computeAC state mods data rules).value = ac + min mods.dex 2 + shieldACBonus state data)
       ∧ (it.armorType = some .heavy →
        (computeAC state mods data rules).value = ac + shieldACBonus state data)))
    ∧ (firstEquippedArmor state data = none →
        (computeAC state mods data rules).value = 10 + mods.dex + shieldACBonus state data) := by
  constructor
  · intro it ac hit hac
    unfold firstEquippedArmor at hit
    cases hs : equippedArmorSlot state data with
    | none => rw [hs] at hit; simp at hit
    | some slot =>
      rw [hs] at hit
      simp only [Option.some_bind] at hit
      refine ⟨?_, ?_, ?_⟩ <;> intro hty <;>
        simp [computeAC, hs, hit, hac, hty]
  · intro hnone
    unfold firstEquippedArmor at hnone
    cases hs : equippedArmorSlot state data with
    | none => simp [computeAC, hs]
    | some slot =>
      rw [hs] at hnone
      simp only [Option.some_bind] at hnone
      simp [computeAC, hs, hnone]

/-- C6 witness: scale mail (AC 14, medium) with a +4 DEX modifier and no
equipped shield computes AC 16 — the DEX contribution is capped at +2. -/
theorem computeAC_armor_type_law_witness :
    (computeAC armorState dex4Modifiers armorData sampleRules).value = 16 := by
  have h := ((computeAC_armor_type_law armorState dex4Modifiers armorData sampleRules).1
    ⟨"scale-mail", "Scale Mail", some 14, some .medium⟩ 14
    (by with_unfolding_all decide) (by decide)).2.1 (by decide)
  rw [h]
  with_unfolding_all decide

/-- Helper: on a resolvable class key, the code's per-class HP contribution
equals the spec-side restatement. -/
theorem classHPContribution_eq_spec (data : GameData) (con : ℚ) (b : Bool)
    (cl : ClassLevel) (h : (alookup data.classes cl.classKey).isSome) :
    classHPContribution data con b cl = specClassHP data con b cl := by
  obtain ⟨cd, hcd⟩ := Option.isSome_iff_exists.mp h
  simp [classHPContribution, specClassHP, hitDieAverageRoll, hcd]

/-- C7: the HP average-roll law — when every class key resolves, the computed
max HP is exactly the floor-at-1 of the spec's sum: full hit die plus CON for
the first class's first level, and `ceil(hitDie/2) + 1 + CON` for every other
level of every class. -/
theorem computeHP_average_roll_law (state : CharacterState) (con : ℚ) (data : GameData)
    (h : ∀ cl ∈ state.classes, (alookup data.classes cl.classKey).isSome) :
    (computeHP state con data).max = max 1 (specHPTotal state con data) := by
  have hmax : computeHPmax state con data = specHPTotal state con data := by
    unfold computeHPmax specHPTotal
    cases hcl : state.classes with
    | nil => rfl
    | cons c0 rest =>
      show classHPContribution data con true c0
            + (rest.map (classHPContribution data con false)).sum
          = specClassHP data con true c0 + (rest.map (specClassHP data con false)).sum
      rw [classHPContribution_eq_spec data con true c0
        (h c0 (by rw [hcl]; exact List.mem_cons_self c0 rest))]
      have hrest : rest.map (classHPContribution data con false)
          = rest.map (specClassHP data con false) :=
        List.map_congr_left (fun cl hmem =>
          classHPContribution_eq_spec data con false cl
            (h cl (by rw [hcl]; exact List.mem_cons_of_mem c0 hmem)))
      rw [hrest]
  simp only [computeHP]
  rw [hmax]

/-- C7 witness: a single-class level-1 character with hit die 8 and CON
modifier +1 has max HP 9. -/
theorem computeHP_average_roll_law_witness :
    (computeHP rogueState 1 rogueData).max = max 1 (specHPTotal rogueState 1 rogueData)
    ∧ (computeHP rogueState 1 rogueData).max = 9 := by
  refine ⟨computeHP_average_roll_law rogueState 1 rogueData (by decide), ?_⟩
  with_unfolding_all decide

/-- C3 counterexample: with the only class key (`mystery`) absent from
`data.classes`, `computeCharacter` succeeds (no error) and returns a result
whose HP, hit dice, features and proficiencies all omit that class — the
resolvers skip a missing class instead of reporting it. -/
theorem missing_class_no_error_cex :
    (computeCharacter ghostState sampleData).toOption.map
      (fun c => (c.hp.max, c.hp.hitDice, c.features, c.proficiencies)) =
      some ((1 : ℚ), ([] : List (String × HitDiceEntry)), ([] : List Feature),
        ({} : Proficiencies)) := by
  with_unfolding_all decide

/-- Helper: the ability-score-improvement pass ignores an appended class entry
whose key does not resolve. -/
theorem applyClassASIs_append_missing (state : CharacterState) (data : GameData)
    (cl : ClassLevel) (h : alookup data.classes cl.classKey = none) (b : AbilityScores) :
    applyClassASIs { state with classes := state.classes ++ [cl] } data b
      = applyClassASIs state data b := by
  unfold applyClassASIs
  simp [List.foldl_append, h]

/-- Helper: the feat pass never reads the class list. -/
theorem applyFeatAbilityBonuses_classes_irrel (state : CharacterState)
    (data : GameData) (l : List ClassLevel) (b : AbilityScores) :
    applyFeatAbilityBonuses { state with classes := l } data b
      = applyFeatAbilityBonuses state data b := by
  unfold applyFeatAbilityBonuses
  rfl

/-- C3 amended: a class entry whose key is absent from `data.classes` is
silently skipped — appending such an entry changes neither `computeHP` nor
`computeAbilityScores` nor `computeFeatures`, and no error is raised; the
missing class's HP, proficiencies and features are simply dropped. -/
theorem missing_class_silently_skipped (state : CharacterState) (data : GameData)
    (con : ℚ) (cl : ClassLevel) (h : alookup data.classes cl.classKey = none) :
    computeHP { state with classes := state.classes ++ [cl] } con data
      = computeHP state con data
    ∧ computeAbilityScores { state with classes := state.classes ++ [cl] } data
      = computeAbilityScores state data
    ∧ computeFeatures { state with classes := state.classes ++ [cl] } data
      = computeFeatures state data := by
  refine ⟨?_, ?_, ?_⟩
  · have hmax : computeHPmax { state with classes := state.classes ++ [cl] } con data
        = computeHPmax state con data := by
      unfold computeHPmax
      dsimp only
      cases hcl : state.classes with
      | nil =>
        show classHPContribution data con true cl + (([] : List ClassLevel).map _).sum = 0
        simp [classHPContribution, h]
      | cons c0 rest =>
        show classHPContribution data con true c0
              + ((rest ++ [cl]).map (classHPContribution data con false)).sum
            = classHPContribution data con true c0
              + (rest.map (classHPContribution data con false)).sum
        simp [classHPContribution, h]
    have hdice : buildHitDice data ({ state with classes := state.classes ++ [cl] }).classes
        = buildHitDice data state.classes := by
      dsimp only
      unfold buildHitDice
      simp [List.foldl_append, buildHitDiceStep, h]
    simp only [computeHP, hmax, hdice]
  · unfold computeAbilityScores
    dsimp only
    rw [applyClassASIs_append_missing state data cl h,
      applyFeatAbilityBonuses_classes_irrel]
  · unfold computeFeatures
    dsimp only
    simp only [selectedSubrace, List.map_append, List.flatten_append]
    have : classLevelFeatures data cl = [] := by simp [classLevelFeatures, h]
    simp [this]

/-- C3 witness: appending the unresolvable class `mystery` at level 4 to the
sample fighter leaves HP, ability scores and features unchanged. -/
theorem missing_class_silently_skipped_witness :
    (computeHP { sampleState with classes := sampleState.classes ++ [⟨"mystery", 4, none⟩] }
        0 sampleData = computeHP sampleState 0 sampleData)
    ∧ (computeAbilityScores
        { sampleState with classes := sampleState.classes ++ [⟨"mystery", 4, none⟩] } sampleData
      = computeAbilityScores sampleState sampleData)
    ∧ (computeFeatures
        { sampleState with classes := sampleState.classes ++ [⟨"mystery", 4, none⟩] } sampleData
      = computeFeatures sampleState sampleData) :=
  missing_class_silently_skipped sampleState sampleData 0 ⟨"mystery", 4, none⟩ (by decide)

/-- Helper: lookup misses when the key is not among the list's keys. -/
theorem alookup_eq_none_of_not_mem_keys {α : Type} (l : List (String × α)) (k : String)
    (h : k ∉ l.map Prod.fst) : alookup l k = none := by
  induction l with
  | nil => simp [alookup]
  | cons p rest ih =>
    obtain ⟨k', v⟩ := p
    simp only [List.map_cons, List.mem_cons, not_or] at h
    rw [alookup_cons, if_neg (fun hh : k' = k => h.1 hh.symm)]
    exact ih h.2

/-- Helper: `hdSetUsed` overwrites the `used` field of the addressed key. -/
theorem hdSetUsed_alookup_eq (m : List (String × HitDiceEntry)) (d : String) (u : ℚ) :
    alookup (hdSetUsed m d u) d = (alookup m d).map (fun e => { e with used := u }) := by
  induction m with
  | nil => simp [hdSetUsed, alookup]
  | cons p rest ih =>
    obtain ⟨k, e⟩ := p
    by_cases hk : k = d
    · subst hk
      simp [hdSetUsed, alookup_cons]
    · simp [hdSetUsed, hk, alookup_cons, ih]

/-- Helper: `hdSetUsed` leaves every other key untouched. -/
theorem hdSetUsed_alookup_ne (m : List (String × HitDiceEntry)) (d : String) (u : ℚ)
    (k : String) (hk : k ≠ d) :
    alookup (hdSetUsed m d u) k = alookup m k := by
  induction m with
  | nil => simp [hdSetUsed]
  | cons p rest ih =>
    obtain ⟨k', e⟩ := p
    by_cases hk' : k' = d
    · subst hk'
      simp [hdSetUsed, alookup_cons, Ne.symm hk]
    · simp [hdSetUsed, hk', alookup_cons, ih]

/-- Helper: under duplicate-free keys (JavaScript objects cannot repeat keys),
the `hitDiceUsed` pass rewrites exactly the buckets whose die appears in the
used map and drops everything else. -/
theorem applyHitDiceUsed_alookup (l : List (String × ℚ))
    (hnd : (l.map Prod.fst).Nodup) (m : List (String × HitDiceEntry)) (k : String) :
    alookup (applyHitDiceUsed m l) k =
      (alookup m k).map (fun e =>
        match alookup l k with
        | some u => { e with used := u }
        | none => e) := by
  induction l generalizing m with
  | nil =>
    show alookup m k = (alookup m k).map _
    cases alookup m k <;> rfl
  | cons p rest ih =>
    obtain ⟨d, u⟩ := p
    simp only [List.map_cons, List.nodup_cons] at hnd
    have step : applyHitDiceUsed m ((d, u) :: rest)
        = applyHitDiceUsed (hdSetUsed m d u) rest := rfl
    rw [step, ih hnd.2]
    by_cases hk : k = d
    · subst hk
      have hrest : alookup rest k = none :=
        alookup_eq_none_of_not_mem_keys rest k hnd.1
      rw [hrest, alookup_cons, if_pos rfl, hdSetUsed_alookup_eq]
      cases alookup m k <;> simp
    · rw [hdSetUsed_alookup_ne m d u k hk, alookup_cons, if_neg (fun hh => hk hh.symm)]

/-- Helper: `hdAddTotal` preserves the all-`used`-zero invariant. -/
theorem hdAddTotal_used_zero (m : List (String × HitDiceEntry)) (die : String) (lvl : ℚ)
    (hm : ∀ p ∈ m, (p.2 : HitDiceEntry).used = 0) :
    ∀ p ∈ hdAddTotal m die lvl, (p.2 : HitDiceEntry).used = 0 := by
  induction m with
  | nil =>
    intro p hp
    simp only [hdAddTotal, List.mem_singleton] at hp
    subst hp
    rfl
  | cons q rest ih =>
    obtain ⟨k', e'⟩ := q
    intro p hp
    by_cases hk : k' = die
    · rw [hdAddTotal, if_pos hk] at hp
      rcases List.mem_cons.mp hp with h1 | h2
      · subst h1
        exact hm (k', e') (List.mem_cons_self _ _)
      · exact hm p (List.mem_cons_of_mem _ h2)
    · rw [hdAddTotal, if_neg hk] at hp
      rcases List.mem_cons.mp hp with h1 | h2
      · subst h1
        exact hm (k', e') (List.mem_cons_self _ _)
      · exact ih (fun q hq => hm q (List.mem_cons_of_mem _ hq)) p h2

/-- Helper: every bucket built from the class list starts with `used = 0`. -/
theorem buildHitDice_mem_used_zero (data : GameData) (cls : List ClassLevel) :
    ∀ p ∈ buildHitDice data cls, (p.2 : HitDiceEntry).used = 0 := by
  have main : ∀ (m : List (String × HitDiceEntry)),
      (∀ p ∈ m, (p.2 : HitDiceEntry).used = 0) →
      ∀ p ∈ cls.foldl (buildHitDiceStep data) m, (p.2 : HitDiceEntry).used = 0 := by
    induction cls with
    | nil => intro m hm; simpa using hm
    | cons c rest ih =>
      intro m hm
      rw [List.foldl_cons]
      apply ih
      unfold buildHitDiceStep
      cases hc : alookup data.classes c.classKey with
      | none => exact hm
      | some cd => exact hdAddTotal_used_zero m _ _ hm
  exact main [] (by simp)

/-- Helper: lookup form of the all-`used`-zero invariant. -/
theorem buildHitDice_used_zero (data : GameData) (cls : List ClassLevel) (k : String)
    (e : HitDiceEntry) (h : alookup (buildHitDice data cls) k = some e) : e.used = 0 := by
  simp only [alookup, Option.map_eq_some'] at h
  obtain ⟨p, hp, rfl⟩ := h
  exact buildHitDice_mem_used_zero data cls p (List.mem_of_find?_eq_some hp)

/-- C8 amended: the `used` counts are carried through from
`state.hitDiceUsed` only for dice the character's classes actually grant —
every die present in the computed hit-dice map has `used` equal to its
`state.hitDiceUsed` entry (0 when absent), while `hitDiceUsed` entries for
ungranted dice do not appear in the output. -/
theorem hit_dice_used_carried_for_granted_dice (state : CharacterState) (con : ℚ)
    (data : GameData) (hnd : (state.hitDiceUsed.map Prod.fst).Nodup)
    (die : String) (e : HitDiceEntry)
    (h : alookup (computeHP state con data).hitDice die = some e) :
    e.used = (alookup state.hitDiceUsed die).getD 0 := by
  simp only [computeHP] at h
  rw [applyHitDiceUsed_alookup state.hitDiceUsed hnd _ die] at h
  cases hb : alookup (buildHitDice data state.classes) die with
  | none => rw [hb] at h; simp at h
  | some e0 =>
    rw [hb] at h
    simp only [Option.map_some'] at h
    cases hu : alookup state.hitDiceUsed die with
    | none =>
      rw [hu] at h
      simp only [Option.some.injEq] at h
      subst h
      simpa using buildHitDice_used_zero data state.classes die e0 hb
    | some u =>
      rw [hu] at h
      simp only [Option.some.injEq] at h
      subst h
      simp

/-- C8 counterexample: a `hitDiceUsed` entry for `d12` — a die no class
grants — is absent from the computed hit-dice map, so not every entry of
`state.hitDiceUsed` appears in the output. -/
theorem hit_dice_used_dropped_cex :
    alookup strayDiceState.hitDiceUsed "d12" = some 2
    ∧ (computeHP strayDiceState 0 sampleData).hitDice
        = [("d10", { total := 1, used := 0 })]
    ∧ alookup (computeHP strayDiceState 0 sampleData).hitDice "d12" = none := by
  refine ⟨?_, ?_, ?_⟩ <;> with_unfolding_all decide

/-- C8 witness: the fighter's granted `d10` bucket carries `used = 2` from
`state.hitDiceUsed`. -/
theorem hit_dice_used_carried_witness :
    ({ total := 3, used := 2 } : HitDiceEntry).used
      = (alookup usedDiceState.hitDiceUsed "d10").getD 0 :=
  hit_dice_used_carried_for_granted_dice usedDiceState 1 sampleData (by decide) "d10"
    { total := 3, used := 2 } (by with_unfolding_all decide)
